import Mathlib

set_option maxRecDepth 100000

/-!
Shallow embedding of the nes-rs emulator core (cartridge mapper, controller,
PPU, CPU, console driver, iNES loader, rewind tape) together with theorems
settling the specification claims.  Machine integers are modelled as `Nat`
with explicit wrap-around (`% 256`, `% 65536`, `% 2^64`) exactly where the
Rust source uses wrapping arithmetic; every fallible operation (array
indexing that may panic, `unreachable!`, `todo!`) returns `Option`, with
`none` marking a panic.
-/

namespace NES

/-- 8-bit wrap-around, mirroring Rust `as u8` / `wrapping_*` on `u8`. -/
def w8 (n : Nat) : Nat := n % 256

/-- 16-bit wrap-around, mirroring Rust `as u16` / `wrapping_*` on `u16`. -/
def w16 (n : Nat) : Nat := n % 65536

/-- 64-bit wrap-around, mirroring Rust `wrapping_*` on `u64`. -/
def w64 (n : Nat) : Nat := n % 18446744073709551616

/-- Bitwise complement on a byte value (Rust `!x` on `u8`). -/
def bnot8 (n : Nat) : Nat := n ^^^ 255

/-- Bitwise complement on a 16-bit value (Rust `!x` on `u16`). -/
def bnot16 (n : Nat) : Nat := n ^^^ 65535

/-- High byte of a 16-bit value (`to_le_bytes` second component). -/
def hi8 (n : Nat) : Nat := (n >>> 8) % 256

/-- Rust `u16::wrapping_add`. -/
def wadd16 (a b : Nat) : Nat := (a + b) % 65536

/-- Rust `u16::wrapping_sub`. -/
def wsub16 (a b : Nat) : Nat := (a + 65536 - b % 65536) % 65536

/-- Rust `u8::wrapping_add`. -/
def wadd8 (a b : Nat) : Nat := (a + b) % 256

/-- Rust `u8::wrapping_sub`. -/
def wsub8 (a b : Nat) : Nat := (a + 256 - b % 256) % 256

/-- Bounds-checked list update; `none` models a Rust index panic. -/
def upd? : List Nat → Nat → Nat → Option (List Nat)
  | [], _, _ => none
  | _ :: rest, 0, v => some (v :: rest)
  | a :: rest, i + 1, v => (upd? rest i v).map (a :: ·)

/-- Bounds-checked slice `l[a..b]`; `none` models a Rust slice panic
(which fires when `a > b` or `b > l.length`). -/
def slice? (l : List Nat) (a b : Nat) : Option (List Nat) :=
  if a ≤ b ∧ b ≤ l.length then some ((l.drop a).take (b - a)) else none

/-! ## cartridge.rs -/

inductive MirroringMode where
  | Horizontal
  | Vertical
  | SingleScreenLowerBank
  | FourScreen
  | SingleScreenUpperBank
  deriving DecidableEq, Repr

/-- CHR memory: ROM banks (read-only) or RAM banks (writable). -/
inductive CHR where
  | rom (banks : List (List Nat))
  | ram (banks : List (List Nat))
  deriving DecidableEq, Repr

def CHR.get_banks : CHR → List (List Nat)
  | .rom banks => banks
  | .ram banks => banks

/-- Mirrors `CHR::get_banks_mut`: only RAM is writable. -/
def CHR.writable : CHR → Bool
  | .rom _ => false
  | .ram _ => true

def CHR.setBanks : CHR → List (List Nat) → CHR
  | .rom _, b => .rom b
  | .ram _, b => .ram b

structure Cartridge where
  prg : List (List Nat)     -- 0x4000-byte PRG banks
  chr : CHR                 -- 0x2000-byte CHR banks
  sram : List (List Nat)    -- 0x2000-byte save-RAM banks
  mirror : MirroringMode
  deriving DecidableEq, Repr

/-- UxROM mapper state (`struct UxROM` in cartridge.rs). -/
structure UxROM where
  cartridge : Cartridge
  first_bank : Nat
  last_bank : Nat
  deriving DecidableEq, Repr

/-- `UxROM::read`; `none` models a bank-indexing panic. -/
def UxROM.read (m : UxROM) (address : Nat) : Option Nat :=
  if address ≤ 0x1fff then
    (m.cartridge.chr.get_banks.get? 0).bind fun bank => bank.get? address
  else if address ≤ 0x7fff then
    some 0
  else if address ≤ 0xbfff then
    (m.cartridge.prg.get? m.first_bank).bind fun bank => bank.get? (address % 0x4000)
  else
    (m.cartridge.prg.get? m.last_bank).bind fun bank => bank.get? (address % 0x4000)

/-- `UxROM::write`. -/
def UxROM.write (m : UxROM) (address data : Nat) : Option UxROM :=
  if address ≤ 0x1fff then
    if m.cartridge.chr.writable then
      match m.cartridge.chr.get_banks.get? 0 with
      | some bank =>
          (upd? bank address data).map fun bank2 =>
            { m with cartridge :=
                { m.cartridge with chr :=
                    m.cartridge.chr.setBanks (m.cartridge.chr.get_banks.set 0 bank2) } }
      | none => none
    else
      some m
  else if address ≤ 0x7fff then
    some m
  else
    some { m with first_bank := data &&& 0x0f }

/-- `UxROM::read_page`: a 256-byte page of cartridge space.  The source
slices `bank[bank_start..bank_stop]` where both bounds are reduced
`% 0x4000`, so `none` also models the slice panic this can cause. -/
def UxROM.read_page (m : UxROM) (page : Nat) : Option (List Nat) :=
  let bank_start := ((page <<< 8) % 0x4000)
  let bank_stop := (bank_start + 256) % 0x4000
  if page ≤ 0x7f then
    none
  else if page ≤ 0xbf then
    (m.cartridge.prg.get? m.first_bank).bind fun bank =>
      slice? bank bank_start bank_stop
  else
    (m.cartridge.prg.get? m.last_bank).bind fun bank =>
      slice? bank bank_start bank_stop

/-- Tagged mapper variant (NROM wraps UxROM, as in the source). -/
inductive Mapper where
  | uxrom (u : UxROM)
  | nrom (u : UxROM)
  deriving DecidableEq, Repr

def Mapper.mirror : Mapper → MirroringMode
  | .uxrom u => u.cartridge.mirror
  | .nrom u => u.cartridge.mirror

def Mapper.read : Mapper → Nat → Option Nat
  | .uxrom u, a => u.read a
  | .nrom u, a => u.read a

/-- `Mapper::write`; NROM ignores PRG-space writes. -/
def Mapper.write : Mapper → Nat → Nat → Option Mapper
  | .uxrom u, a, d => (u.write a d).map .uxrom
  | .nrom u, a, d =>
      if a ≤ 0x1fff then (u.write a d).map .nrom else some (.nrom u)

def Mapper.read_page : Mapper → Nat → Option (List Nat)
  | .uxrom u, p => u.read_page p
  | .nrom u, p => u.read_page p

/-! ## controller.rs -/

/-- Gamepad shift register (`struct Controller`).  `index` is the
interior-mutable read cursor (a `Cell<u8>` in the source). -/
structure Controller where
  button_state : Nat
  strobe : Bool
  index : Nat
  deriving DecidableEq, Repr

def Controller.default : Controller := ⟨0, false, 0⟩

def Controller.update_buttons (c : Controller) (state : Nat) : Controller :=
  { c with button_state := state }

/-- `Controller::read`: returns the shifted-out bit and the updated
controller (the source mutates `index` through a `Cell`). -/
def Controller.read (c : Controller) : Nat × Controller :=
  if c.index < 8 then
    ((c.button_state >>> c.index) &&& 1,
     { c with index := if !c.strobe then c.index + 1 else c.index })
  else
    (0, c)

/-- `Controller::write`: copies bit 0 into the strobe; while the strobe
is set the cursor is reset to 0. -/
def Controller.write (c : Controller) (data : Nat) : Controller :=
  let strobe := (data &&& 1) == 1
  if strobe then { c with strobe := strobe, index := 0 }
  else { c with strobe := strobe }

/-! ## ppu.rs -/

/-- Parsed PPUCTRL (`struct PPUControl`). -/
structure PPUControl where
  base_nametable : Nat
  vram_increment : Bool
  sprite_pattern_table : Bool
  background_pattern_table : Bool
  tall_sprites : Bool
  master_select : Bool
  enable_nmi : Bool
  deriving DecidableEq, Repr

/-- `From<u8> for PPUControl`. -/
def PPUControl.ofRaw (raw : Nat) : PPUControl where
  base_nametable := raw &&& 0b11
  vram_increment := (raw &&& 0b100) != 0
  sprite_pattern_table := (raw &&& 0b1000) != 0
  background_pattern_table := (raw &&& 0x10) != 0
  tall_sprites := (raw &&& 0x20) != 0
  master_select := (raw &&& 0x40) != 0
  enable_nmi := (raw &&& 0x80) != 0

/-- Parsed PPUMASK (`struct PPUMask`). -/
structure PPUMask where
  greyscale : Bool
  show_background_left8 : Bool
  show_sprites_left8 : Bool
  show_background : Bool
  show_sprites : Bool
  boost_red : Bool
  boost_green : Bool
  boost_blue : Bool
  deriving DecidableEq, Repr

/-- `From<u8> for PPUMask`. -/
def PPUMask.ofRaw (raw : Nat) : PPUMask where
  greyscale := (raw &&& 0b1) != 0
  show_background_left8 := (raw &&& 0b10) != 0
  show_sprites_left8 := (raw &&& 0b100) != 0
  show_background := (raw &&& 0b1000) != 0
  show_sprites := (raw &&& 0x10) != 0
  boost_red := (raw &&& 0x20) != 0
  boost_green := (raw &&& 0x40) != 0
  boost_blue := (raw &&& 0x80) != 0

/-- Decomposed scroll address (`struct VRAMAddress`). -/
structure VRAMAddress where
  coarse_x : Nat
  coarse_y : Nat
  nametable : Nat
  fine_y : Nat
  deriving DecidableEq, Repr

/-- `From<u16> for VRAMAddress`. -/
def VRAMAddress.ofRaw (raw : Nat) : VRAMAddress where
  coarse_x := raw &&& 0x1f
  coarse_y := (raw >>> 5) &&& 0x1f
  nametable := (raw >>> 10) &&& 0b11
  fine_y := (raw >>> 12) &&& 0b111

/-- `From<VRAMAddress> for u16`. -/
def VRAMAddress.toRaw (a : VRAMAddress) : Nat :=
  a.coarse_x ||| (a.coarse_y <<< 5) ||| (a.nametable <<< 10) ||| (a.fine_y <<< 12)

/-- `VRAMAddress::increment_x`. -/
def VRAMAddress.increment_x (a : VRAMAddress) : VRAMAddress :=
  if a.coarse_x < 31 then { a with coarse_x := a.coarse_x + 1 }
  else { a with nametable := a.nametable ^^^ 0b01, coarse_x := 0 }

/-- `VRAMAddress::increment_y`. -/
def VRAMAddress.increment_y (a : VRAMAddress) : VRAMAddress :=
  if a.fine_y < 7 then { a with fine_y := a.fine_y + 1 }
  else if a.coarse_y < 29 then { a with fine_y := 0, coarse_y := a.coarse_y + 1 }
  else { a with fine_y := 0, coarse_y := 0, nametable := a.nametable ^^^ 0b10 }

/-- `VRAMAddress::copy_x`. -/
def VRAMAddress.copy_x (a other : VRAMAddress) : VRAMAddress :=
  { a with coarse_x := other.coarse_x,
           nametable := (a.nametable &&& 0b10) ||| (other.nametable &&& 0b01) }

/-- `VRAMAddress::copy_y`. -/
def VRAMAddress.copy_y (a other : VRAMAddress) : VRAMAddress :=
  { a with coarse_y := other.coarse_y, fine_y := other.fine_y,
           nametable := (a.nametable &&& 0b01) ||| (other.nametable &&& 0b10) }

/-- Pre-fetched background tile (`struct TileData`). -/
structure TileData where
  nametable_index : Nat
  palette : Nat
  pattern_low : Nat
  pattern_high : Nat
  deriving DecidableEq, Repr

def TileData.default : TileData := ⟨0, 0, 0, 0⟩

/-- `TileData::color`. -/
def TileData.color (t : TileData) (x : Nat) : Nat :=
  let shift := 7 - x
  let lo := (t.pattern_low >>> shift) &&& 0b1
  let hi := (t.pattern_high >>> shift) &&& 0b1
  (hi <<< 1) ||| lo

/-- `struct ParsedSprite`. -/
structure ParsedSprite where
  top_y : Nat
  tile_index : Nat
  palette : Nat
  behind_background : Bool
  flip_horizontal : Bool
  flip_vertical : Bool
  left_x : Nat
  deriving DecidableEq, Repr

def ParsedSprite.default : ParsedSprite := ⟨0, 0, 0, false, false, false, 0⟩

/-- `From<&[u8; 4]> for ParsedSprite`. -/
def ParsedSprite.ofRaw (r0 r1 r2 r3 : Nat) : ParsedSprite where
  top_y := r0
  tile_index := r1
  palette := r2 &&& 0b11
  behind_background := (r2 &&& 0x20) != 0
  flip_horizontal := (r2 &&& 0x40) != 0
  flip_vertical := (r2 &&& 0x80) != 0
  left_x := r3

/-- `ParsedSprite::is_empty`. -/
def ParsedSprite.isEmptySlot (s : ParsedSprite) : Bool :=
  s.top_y == 0xff && s.tile_index == 0xff && s.left_x == 0xff

/-- `struct ProcessedSprite`. -/
structure ProcessedSprite where
  sprite : ParsedSprite
  tile : TileData
  deriving DecidableEq, Repr

def ProcessedSprite.default : ProcessedSprite := ⟨ParsedSprite.default, TileData.default⟩

/-- `ProcessedSprite::color`. -/
def ProcessedSprite.color (p : ProcessedSprite) (x : Nat) : Nat :=
  p.tile.color (if p.sprite.flip_horizontal then 7 - x else x)

/-- 240 rows of 256 palette indices (`struct Screen`). -/
abbrev Screen := List (List Nat)

def Screen.default : Screen := List.replicate 240 (List.replicate 256 0)

/-- Write one pixel of the screen (always in bounds at the call sites). -/
def Screen.setPixel (s : Screen) (y x v : Nat) : Screen :=
  List.set s y ((List.getD s y []).set x v)

inductive MultiplexerDecision where
  | DrawBackground
  | DrawTile
  | DrawSprite
  deriving DecidableEq, Repr

/-- Full PPU state (`struct PPU`).  The `Cell` fields of the source
(`buffered_ppu_data`, `last_read`) are ordinary fields here; functions
that mutate them through shared references return the updated PPU. -/
structure PPU where
  cycle_in_scanline : Nat
  scanline : Nat
  frame : Nat
  control_reg : Nat
  status_reg : Nat
  mask_reg : Nat
  oam_addr : Nat
  buffered_ppu_data : Nat
  v : Nat
  t : Nat
  w : Bool
  in_vblank : Bool
  fine_x : Nat
  pending_screen : Screen
  oam : List Nat
  secondary_oam : List Nat
  palette_ram : List Nat
  nametables : List Nat
  pending_nmi : Bool
  pending_tile : TileData
  processed_tile : TileData × TileData
  processed_sprites : List ProcessedSprite
  sprite_zero_in_line : Bool
  last_read : Option Nat
  deriving DecidableEq, Repr

/-- `Default for PPU`. -/
def PPU.default : PPU where
  cycle_in_scanline := 0
  scanline := 0
  frame := 0
  control_reg := 0
  status_reg := 0
  mask_reg := 0
  oam_addr := 0
  buffered_ppu_data := 0
  v := 0
  t := 0
  w := false
  in_vblank := false
  fine_x := 0
  pending_screen := Screen.default
  oam := List.replicate 256 0
  secondary_oam := List.replicate 32 0
  palette_ram := List.replicate 32 0
  nametables := List.replicate 2048 0
  pending_nmi := false
  pending_tile := TileData.default
  processed_tile := (TileData.default, TileData.default)
  processed_sprites := List.replicate 8 ProcessedSprite.default
  sprite_zero_in_line := false
  last_read := none

/-- `PPU::reset`. -/
def PPU.reset (p : PPU) : PPU :=
  { p with cycle_in_scanline := 0, scanline := 0, frame := 0, control_reg := 0,
           oam_addr := 0, mask_reg := 0, in_vblank := false, pending_nmi := false,
           last_read := none }

/-- The constant `decision_table` of `PPU::multiplex_colors`. -/
def decisionTable : List MultiplexerDecision :=
  [.DrawBackground, .DrawBackground, .DrawSprite, .DrawSprite,
   .DrawTile, .DrawTile, .DrawSprite, .DrawTile]

/-- `PPU::multiplex_colors`. -/
def PPU.multiplex_colors (tile_palette tile_palette_offset sprite_palette
    sprite_palette_offset : Nat) (sprite_in_background : Bool) :
    MultiplexerDecision × Nat :=
  let decision_index :=
    ((if tile_palette != 0 then 1 else 0) <<< 2) |||
    ((if sprite_palette != 0 then 1 else 0) <<< 1) |||
    (if sprite_in_background then 1 else 0)
  let decision := decisionTable.getD decision_index .DrawBackground
  let color := match decision with
    | .DrawBackground => 0
    | .DrawTile => tile_palette_offset ||| tile_palette
    | .DrawSprite => sprite_palette_offset ||| sprite_palette
  (decision, color)

/-- `PPU::rendering_enabled`. -/
def PPU.rendering_enabled (p : PPU) : Bool :=
  let parsed_mask := PPUMask.ofRaw p.mask_reg
  parsed_mask.show_background || parsed_mask.show_sprites

/-- `PPU::mirror_nametable`. -/
def PPU.mirror_nametable (addr : Nat) (mode : MirroringMode) : Nat :=
  let nametable_offset := addr % 0x400
  let mirroring : List Nat := match mode with
    | .Horizontal => [0, 0, 1, 1]
    | .Vertical => [0, 1, 0, 1]
    | .SingleScreenLowerBank => [0, 0, 0, 0]
    | .FourScreen => [0, 1, 2, 3]
    | .SingleScreenUpperBank => [0, 0, 0, 0]
  let nametable_select := (addr >>> 10) % 4
  let nametable_bank := mirroring.getD nametable_select 0
  (nametable_bank <<< 10) ||| nametable_offset

/-- `PPU::mirror_palette`. -/
def PPU.mirror_palette (offset : Nat) : Nat :=
  let is_mirrored := (offset &&& 0x13) == 0x10
  offset &&& bnot8 ((if is_mirrored then 1 else 0) <<< 4)

/-- `PPU::read_byte` on the PPU bus; `none` models an index panic. -/
def PPU.read_byte (p : PPU) (m : Mapper) (addr : Nat) : Option Nat :=
  if addr ≤ 0x1fff then
    m.read addr
  else if addr ≤ 0x3eff then
    p.nametables.get? (PPU.mirror_nametable addr m.mirror)
  else
    p.palette_ram.get? (PPU.mirror_palette (w8 (addr % 0x20)))

/-- `PPU::write_byte`; `none` models an index panic. -/
def PPU.write_byte (p : PPU) (m : Mapper) (addr data : Nat) : Option (PPU × Mapper) :=
  if addr ≤ 0x1fff then
    (m.write addr data).map fun m2 => (p, m2)
  else if addr ≤ 0x3eff then
    (upd? p.nametables (PPU.mirror_nametable addr m.mirror) data).map fun nt =>
      ({ p with nametables := nt }, m)
  else
    (upd? p.palette_ram (PPU.mirror_palette (w8 (addr % 0x20))) data).map fun pal =>
      ({ p with palette_ram := pal }, m)

/-- `PPU::write_dma`; `none` models a `copy_from_slice` length panic. -/
def PPU.write_dma (p : PPU) (page : Option (List Nat)) : Option PPU :=
  match page with
  | some page =>
      if page.length == 256 && p.oam.length == 256 then
        if p.oam_addr == 0 then
          some { p with oam := page }
        else
          let before := page.take (page.length - p.oam_addr)
          let after := page.drop (page.length - p.oam_addr)
          some { p with oam := after ++ before }
      else none
  | none => some { p with oam := List.replicate p.oam.length 0 }

/-- `PPU::read_nmi_line`: checks the interrupt line and sets it low. -/
def PPU.read_nmi_line (p : PPU) : Bool × PPU :=
  (p.pending_nmi, { p with pending_nmi := false })

/-- Inner scan loop of `PPU::find_sprites_in_line`: walks the 64 OAM
entries in order, copying in-range sprites into secondary OAM until
eight are found, then flags overflow on the ninth and breaks. -/
def spriteScan (y sprite_height : Nat) :
    List Nat → Nat → List Nat → Nat → Bool → Bool → (List Nat × Nat × Bool × Bool)
  | r0 :: r1 :: r2 :: r3 :: rest, idx, sec, count, overflow, zero =>
      let top_y := r0
      if y ≥ top_y ∧ y < top_y + sprite_height then
        if count == 8 then
          (sec, count, true, zero)
        else
          let zero2 := zero || (idx == 0)
          let sec2 := ((((sec.set (count * 4) r0).set (count * 4 + 1) r1).set
            (count * 4 + 2) r2).set (count * 4 + 3) r3)
          spriteScan y sprite_height rest (idx + 1) sec2 (count + 1) overflow zero2
      else
        spriteScan y sprite_height rest (idx + 1) sec count overflow zero
  | _, _, sec, count, overflow, zero => (sec, count, overflow, zero)

/-- `PPU::find_sprites_in_line` (sprite evaluation at dot 257). -/
def PPU.find_sprites_in_line (p : PPU) : PPU :=
  let secondary := List.replicate 32 0xff
  let sprite_height := if (PPUControl.ofRaw p.control_reg).tall_sprites then 16 else 8
  let y := p.scanline
  let r := spriteScan y sprite_height p.oam 0 secondary 0 false false
  let status1 := p.status_reg &&& (1 <<< 5)
  let status2 := status1 ||| ((if r.2.2.1 then 1 else 0) <<< 5)
  { p with secondary_oam := r.1, sprite_zero_in_line := r.2.2.2,
           status_reg := status2 }

/-- Sprite-search loop of `PPU::render_pixel`: first listed sprite whose
window contains `x` and whose pixel is opaque wins; an all-`$FF` slot
stops the scan. -/
def spriteSearch (x : Nat) :
    List ProcessedSprite → Nat → (Nat × Nat × Nat × Bool)
  | ps :: rest, idx =>
      if ps.sprite.isEmptySlot then (0, 0, 0, false)
      else
        let sprite_left := ps.sprite.left_x
        if x ≥ sprite_left ∧ x < sprite_left + 8 then
          let sprite_x := x - ps.sprite.left_x
          let sprite_palette := ps.color sprite_x
          if sprite_palette != 0 then
            (sprite_palette, idx, ps.sprite.palette <<< 2, ps.sprite.behind_background)
          else
            spriteSearch x rest (idx + 1)
        else
          spriteSearch x rest (idx + 1)
  | [], _ => (0, 0, 0, false)

/-- `PPU::render_pixel`.  As in the source, sprite visibility is gated on
`PPUMask::from(self.control_reg)` (reading the control register). -/
def PPU.render_pixel (p : PPU) : Option PPU :=
  let x := p.cycle_in_scanline - 1
  let y := p.scanline
  let fine_x := (x % 8) + p.fine_x
  let tile := if fine_x ≥ 8 then p.processed_tile.2 else p.processed_tile.1
  let tile_palette := tile.color (fine_x % 8)
  let tile_palette_offset := (tile.palette &&& 0x3) <<< 2
  let s :=
    if (PPUMask.ofRaw p.control_reg).show_sprites then
      spriteSearch x p.processed_sprites 0
    else (0, 0, 0, false)
  let sprite_palette := s.1
  let sprite_pos := s.2.1
  let sprite_palette_offset := s.2.2.1
  let sprite_in_background := s.2.2.2
  let dc := PPU.multiplex_colors tile_palette tile_palette_offset sprite_palette
    (0x10 ||| sprite_palette_offset) sprite_in_background
  let zero_hit := p.sprite_zero_in_line && sprite_pos == 0 &&
    dc.1 == MultiplexerDecision.DrawSprite
  let status2 := p.status_reg ||| ((if zero_hit then 1 else 0) <<< 6)
  (p.palette_ram.get? (PPU.mirror_palette dc.2)).map fun px =>
    { p with status_reg := status2,
             pending_screen := p.pending_screen.setPixel y x px }

/-- `PPU::fetch_background_tile`. -/
def PPU.fetch_background_tile (p : PPU) (m : Mapper) : Option PPU :=
  let r := p.cycle_in_scanline % 8
  if r == 0 then
    some { p with processed_tile := (p.processed_tile.2, p.pending_tile) }
  else if r == 1 then
    let nametable_addr := 0x2000 ||| (p.v &&& 0x0fff)
    (p.read_byte m nametable_addr).map fun b =>
      { p with pending_tile := { p.pending_tile with nametable_index := b } }
  else if r == 3 then
    let attr_address :=
      0x23C0 ||| (p.v &&& 0x0C00) ||| ((p.v >>> 4) &&& 0x38) ||| ((p.v >>> 2) &&& 0x07)
    (p.read_byte m attr_address).map fun attr_data =>
      let attr_shift := ((p.v &&& 0x40) >>> 4) ||| (p.v &&& 0x2)
      { p with pending_tile :=
          { p.pending_tile with palette := (attr_data >>> attr_shift) &&& 0b11 } }
  else if r == 5 then
    let pattern_table :=
      (if (PPUControl.ofRaw p.control_reg).background_pattern_table then 1 else 0) <<< 12
    let nametable_index := p.pending_tile.nametable_index <<< 4
    let fine_y := (VRAMAddress.ofRaw p.v).fine_y
    let pattern_low_address := pattern_table ||| nametable_index ||| (0 <<< 3) ||| fine_y
    (p.read_byte m pattern_low_address).map fun b =>
      { p with pending_tile := { p.pending_tile with pattern_low := b } }
  else if r == 7 then
    let pattern_table :=
      (if (PPUControl.ofRaw p.control_reg).background_pattern_table then 1 else 0) <<< 12
    let nametable_index := p.pending_tile.nametable_index <<< 4
    let fine_y := (VRAMAddress.ofRaw p.v).fine_y
    let pattern_high_address := pattern_table ||| nametable_index ||| (1 <<< 3) ||| fine_y
    (p.read_byte m pattern_high_address).map fun b =>
      { p with pending_tile := { p.pending_tile with pattern_high := b } }
  else
    some p

/-- `PPU::update_vram_addr` (scroll-address side effects, in the source
match-arm order). -/
def PPU.update_vram_addr (p : PPU) : PPU :=
  if !p.rendering_enabled then p
  else if p.cycle_in_scanline == 256 then
    { p with v := (VRAMAddress.ofRaw p.v).increment_y.toRaw }
  else if p.cycle_in_scanline == 257 then
    { p with v := ((VRAMAddress.ofRaw p.v).copy_x (VRAMAddress.ofRaw p.t)).toRaw }
  else if p.scanline == 261 ∧ 280 ≤ p.cycle_in_scanline ∧ p.cycle_in_scanline ≤ 304 then
    { p with v := ((VRAMAddress.ofRaw p.v).copy_y (VRAMAddress.ofRaw p.t)).toRaw }
  else if ((1 ≤ p.cycle_in_scanline ∧ p.cycle_in_scanline ≤ 256) ∨
      328 ≤ p.cycle_in_scanline) ∧ p.cycle_in_scanline % 8 == 0 then
    { p with v := (VRAMAddress.ofRaw p.v).increment_x.toRaw }
  else p

/-- Sprite-fetch loop at dot 320 of `PPU::step_visible`: pairs each
4-byte secondary-OAM chunk with the existing processed-sprite slot
(whose stale tile survives for empty chunks, as in the source). -/
def fetchSprites (m : Mapper) (tall spt : Bool) (sprite_height y : Nat) :
    List Nat → List ProcessedSprite → Option (List ProcessedSprite)
  | r0 :: r1 :: r2 :: r3 :: rest, old :: olds => do
      let sprite := ParsedSprite.ofRaw r0 r1 r2 r3
      let tallU8 : Nat := if tall then 1 else 0
      if r0 == 0xff && r1 == 0xff && r2 == 0xff && r3 == 0xff then
        (fetchSprites m tall spt sprite_height y rest olds).map
          (⟨sprite, old.tile⟩ :: ·)
      else
        let bank := if tall then sprite.tile_index &&& 0b1
                    else (if spt then 1 else 0)
        let pattern_table_address := bank <<< 12
        let tile_index0 := sprite.tile_index &&& bnot8 tallU8
        let tile_y0 := w8 (wsub16 y sprite.top_y)
        let tile_y1 := if sprite.flip_vertical
          then wsub8 (sprite_height - 1) tile_y0 else tile_y0
        let tile_index1 := tile_index0 &&& bnot8 tallU8
        let tile_index2 := wadd8 tile_index1 (if tile_y1 ≥ 8 then 1 else 0)
        let tile_y2 := tile_y1 &&& 0x7
        let tile_address_lo :=
          pattern_table_address ||| (tile_index2 <<< 4) ||| (0 <<< 3) ||| tile_y2
        let tile_address_hi := tile_address_lo ||| (1 <<< 3)
        (m.read tile_address_lo).bind fun plo =>
          (m.read tile_address_hi).bind fun phi =>
            (fetchSprites m tall spt sprite_height y rest olds).map
              (⟨sprite, ⟨0, sprite.palette, plo, phi⟩⟩ :: ·)
  | _, olds => some olds

/-- `PPU::step_visible`. -/
def PPU.step_visible (p : PPU) (m : Mapper) : Option PPU :=
  if !p.rendering_enabled then some p
  else
    let body : Option PPU :=
      if p.cycle_in_scanline == 0 then some p
      else if p.cycle_in_scanline ≤ 256 then
        (p.render_pixel).bind fun p2 => p2.fetch_background_tile m
      else if p.cycle_in_scanline == 257 then
        some p.find_sprites_in_line
      else if p.cycle_in_scanline == 320 then
        let ppu_control := PPUControl.ofRaw p.control_reg
        let sprite_height := if ppu_control.tall_sprites then 16 else 8
        (fetchSprites m ppu_control.tall_sprites ppu_control.sprite_pattern_table
            sprite_height p.scanline p.secondary_oam p.processed_sprites).map
          fun sprites => { p with processed_sprites := sprites }
      else if 321 ≤ p.cycle_in_scanline ∧ p.cycle_in_scanline ≤ 336 then
        p.fetch_background_tile m
      else some p
    body.map PPU.update_vram_addr

/-- `PPU::step_post_render` (idle). -/
def PPU.step_post_render (p : PPU) : PPU := p

/-- `PPU::step_vblank`. -/
def PPU.step_vblank (p : PPU) : PPU :=
  if p.scanline == 241 ∧ p.cycle_in_scanline == 1 then
    { p with in_vblank := true,
             status_reg := p.status_reg ||| 0x80,
             pending_nmi := (PPUControl.ofRaw p.control_reg).enable_nmi }
  else p

/-- `PPU::step_pre_render`. -/
def PPU.step_pre_render (p : PPU) (m : Mapper) : Option PPU :=
  let p :=
    if p.cycle_in_scanline == 1 then
      { p with status_reg := p.status_reg &&& bnot8 0xc0,
               in_vblank := false, pending_nmi := false }
    else p
  if !p.rendering_enabled then some p
  else
    let body : Option PPU :=
      if p.cycle_in_scanline == 0 then some p
      else if p.cycle_in_scanline ≤ 256 then p.fetch_background_tile m
      else if 321 ≤ p.cycle_in_scanline ∧ p.cycle_in_scanline ≤ 336 then
        p.fetch_background_tile m
      else some p
    body.map PPU.update_vram_addr

/-- `PPU::update_cycle`. -/
def PPU.update_cycle (p : PPU) : PPU :=
  if p.cycle_in_scanline < 340 then
    { p with cycle_in_scanline := p.cycle_in_scanline + 1 }
  else if p.scanline < 261 then
    { p with scanline := p.scanline + 1, cycle_in_scanline := 0 }
  else
    let frame2 := w64 (p.frame + 1)
    { p with frame := frame2, scanline := 0,
             cycle_in_scanline :=
               if p.rendering_enabled && frame2 % 2 == 1 then 1 else 0 }

/-- First phase of `PPU::step`: consume the `last_read` latch (deferred
`$2002`/`$2007` read side effects) and clear it. -/
def PPU.consume_latch (p : PPU) : PPU :=
  let p :=
    if p.last_read == some 0x2002 then
      { p with w := false, status_reg := p.status_reg &&& bnot8 0x80 }
    else if p.last_read == some 0x2007 then
      let inc : Nat := if (PPUControl.ofRaw p.control_reg).vram_increment then 32 else 1
      { p with v := wadd16 p.v inc }
    else p
  { p with last_read := none }

/-- Second phase of `PPU::step`: dispatch on the scanline; `none` models
the `unreachable!()` for scanlines above 261. -/
def PPU.step_scanline (p : PPU) (m : Mapper) : Option PPU :=
  if p.scanline ≤ 239 then p.step_visible m
  else if p.scanline == 240 then some p.step_post_render
  else if p.scanline ≤ 260 then some p.step_vblank
  else if p.scanline == 261 then p.step_pre_render m
  else none

/-- `PPU::step`: consume the latch, dispatch on the scanline, advance
the dot counter. -/
def PPU.step (p : PPU) (m : Mapper) : Option PPU :=
  ((p.consume_latch).step_scanline m).map PPU.update_cycle

/-- `PPU::read_register`: latches the (16-register-masked) address into
`last_read`, then serves the read; returns the value and updated PPU. -/
def PPU.read_register (p : PPU) (m : Mapper) (addr : Nat) : Option (Nat × PPU) :=
  let reg := 0x2000 ||| (addr &&& 0xf)
  let p := { p with last_read := some reg }
  if reg == 0x2002 then
    some (p.status_reg, p)
  else if reg == 0x2004 then
    (p.oam.get? p.oam_addr).map fun b => (b, p)
  else if reg == 0x2007 then
    (p.read_byte m p.v).bind fun contents =>
      if p.v ≤ 0x3eff then
        some (p.buffered_ppu_data, { p with buffered_ppu_data := contents })
      else if p.v ≤ 0x3fff then
        (p.read_byte m (p.v ^^^ 0x1000)).map fun under =>
          (contents, { p with buffered_ppu_data := under })
      else
        some (contents, p)
  else
    some (0, p)

/-- `PPU::write_register`; `none` models the `unreachable!()` arm, which
is hit by every register index other than `$2000/1/3/4/5/6/7`. -/
def PPU.write_register (p : PPU) (m : Mapper) (addr data : Nat) :
    Option (PPU × Mapper) :=
  let reg := 0x2000 ||| (addr &&& 0xf)
  if reg == 0x2000 then
    let parsed_prev_ctrl := PPUControl.ofRaw p.control_reg
    let parsed_next_ctrl := PPUControl.ofRaw data
    let pending2 :=
      if p.in_vblank && !parsed_prev_ctrl.enable_nmi && parsed_next_ctrl.enable_nmi
      then true else p.pending_nmi
    let t1 := VRAMAddress.ofRaw p.t
    let t2 := { t1 with nametable := parsed_next_ctrl.base_nametable }
    some ({ p with pending_nmi := pending2, control_reg := data, t := t2.toRaw }, m)
  else if reg == 0x2001 then
    some ({ p with mask_reg := data }, m)
  else if reg == 0x2003 then
    some ({ p with oam_addr := data }, m)
  else if reg == 0x2004 then
    (upd? p.oam p.oam_addr data).map fun oam2 =>
      ({ p with oam := oam2, oam_addr := wadd8 p.oam_addr 1 }, m)
  else if reg == 0x2005 then
    if !p.w then
      let t1 := VRAMAddress.ofRaw p.t
      let t2 := { t1 with coarse_x := data >>> 3 }
      some ({ p with w := true, t := t2.toRaw, fine_x := data &&& 0b111 }, m)
    else
      let t1 := VRAMAddress.ofRaw p.t
      let t2 := { t1 with coarse_y := data >>> 3, fine_y := data &&& 0b111 }
      some ({ p with w := false, t := t2.toRaw }, m)
  else if reg == 0x2006 then
    if !p.w then
      let mask := 0x80ff
      some ({ p with w := true,
                     t := (p.t &&& mask) ||| ((data <<< 8) &&& bnot16 mask) }, m)
    else
      let t2 := (p.t &&& 0xff00) ||| data
      some ({ p with t := t2, v := t2, w := false }, m)
  else if reg == 0x2007 then
    (p.write_byte m p.v data).map fun pm =>
      let inc := if (PPUControl.ofRaw pm.1.control_reg).vram_increment then 32 else 1
      ({ pm.1 with v := wadd16 pm.1.v inc }, pm.2)
  else
    none

/-! ## cpu.rs (with the opcode table of the missing instructions.rs left
as a parameter) -/

/-- `enum StatusFlags` with its discriminants (bit positions). -/
inductive StatusFlags where
  | C | Z | I | D | B | U | V | N
  deriving DecidableEq, Repr

def StatusFlags.bit : StatusFlags → Nat
  | .C => 0 | .Z => 1 | .I => 2 | .D => 3 | .B => 4 | .U => 5 | .V => 6 | .N => 7

/-- Rust `u64::wrapping_sub`. -/
def wsub64 (a b : Nat) : Nat :=
  (a + 18446744073709551616 - b % 18446744073709551616) % 18446744073709551616

/-- `struct CPU`. -/
structure CPU where
  cycles : Nat
  pc : Nat
  a : Nat
  x : Nat
  y : Nat
  status : Nat
  sp : Nat
  ram : List Nat
  deriving DecidableEq, Repr

def CPU.default : CPU := ⟨0, 0, 0, 0, 0, 0, 0, List.replicate 0x800 0⟩

/-- The APU is a stub in the source (its module is not under src/);
the spec declares it out of scope, so it carries no state. -/
abbrev APU := Unit

/-- `struct MemoryBus`. -/
structure MemoryBus where
  mapper : Mapper
  ppu : PPU
  apu : APU
  controller : Controller
  deriving DecidableEq

/-- CPU together with the bus it drives; functions that the source writes
as `&mut self`/`&mut bus` (or that mutate `Cell`s) return the update. -/
structure Machine where
  cpu : CPU
  bus : MemoryBus
  deriving DecidableEq

/-- `fn crosses_page_boundary`. -/
def crosses_page_boundary (a b : Nat) : Bool := hi8 a != hi8 b

/-- `CPU::check_status_bit`. -/
def CPU.check_status_bit (c : CPU) (bit : StatusFlags) : Bool :=
  c.status &&& (1 <<< bit.bit) != 0

/-- `CPU::write_status_bit`. -/
def CPU.write_status_bit (c : CPU) (bit : StatusFlags) (value : Bool) : CPU :=
  let mask := 1 <<< bit.bit
  { c with status := (c.status &&& bnot8 mask) ||| (if value then mask else 0) }

/-- `CPU::set_nz`. -/
def CPU.set_nz (c : CPU) (value : Nat) : CPU :=
  (c.write_status_bit .N (value ≥ 0x80)).write_status_bit .Z (value == 0)

/-- `CPU::set_cnz`. -/
def CPU.set_cnz (c : CPU) (value : Nat) : CPU :=
  (c.write_status_bit .C ((value &&& 0x100) != 0)).set_nz (w8 value)

/-- `CPU::read_byte` (CPU memory map); the machine is returned because
PPU-register and controller reads have interior-mutability effects. -/
def Machine.read_byte (M : Machine) (addr : Nat) : Option (Nat × Machine) :=
  if addr ≤ 0x1fff then
    (M.cpu.ram.get? (addr % M.cpu.ram.length)).map fun b => (b, M)
  else if addr ≤ 0x3fff then
    (M.bus.ppu.read_register M.bus.mapper addr).map fun vp =>
      (vp.1, { M with bus := { M.bus with ppu := vp.2 } })
  else if addr ≤ 0x4013 then some (0, M)
  else if addr == 0x4014 then some (0, M)
  else if addr == 0x4016 then
    let rc := M.bus.controller.read
    some (rc.1, { M with bus := { M.bus with controller := rc.2 } })
  else if addr == 0x4017 then some (0, M)
  else if 0x4018 ≤ addr ∧ addr ≤ 0x401f then some (0, M)
  else
    -- the remaining addresses ($4015 and $4020..) fall through to the mapper
    (M.bus.mapper.read addr).map fun b => (b, M)

/-- `CPU::read_page`: the outer `Option` is a panic (the source slices
`self.ram[(page << 8)..][..256]`, which panics for pages `$08..$1F`);
the inner `Option` is the Rust `Option<&[u8; 256]>` value. -/
def Machine.read_page (M : Machine) (page : Nat) : Option (Option (List Nat)) :=
  if page ≤ 0x1f then
    (slice? M.cpu.ram (page <<< 8) ((page <<< 8) + 256)).map some
  else if page ≤ 0x7f then
    some none
  else
    -- for cartridge pages the mapper either panics (slice or bank index,
    -- `none` here) or produces a page; its Rust `Option` is `Some`
    (M.bus.mapper.read_page page).map some

/-- `CPU::read_address` (little-endian word read). -/
def Machine.read_address (M : Machine) (addr : Nat) : Option (Nat × Machine) :=
  (M.read_byte addr).bind fun lo =>
    (lo.2.read_byte (wadd16 addr 1)).map fun hi =>
      (lo.1 ||| (hi.1 <<< 8), hi.2)

/-- `CPU::read_address_indirect` (6502 page-wrap bug). -/
def Machine.read_address_indirect (M : Machine) (addr : Nat) : Option (Nat × Machine) :=
  let offset := addr % 256
  let page := hi8 addr
  (M.read_byte addr).bind fun lo =>
    (lo.2.read_byte ((wadd8 offset 1) ||| (page <<< 8))).map fun hi =>
      (lo.1 ||| (hi.1 <<< 8), hi.2)

/-- `CPU::write_byte` (CPU memory map, including OAM DMA at `$4014`). -/
def Machine.write_byte (M : Machine) (addr data : Nat) : Option Machine :=
  if addr ≤ 0x1fff then
    (upd? M.cpu.ram (addr % M.cpu.ram.length) data).map fun ram2 =>
      { M with cpu := { M.cpu with ram := ram2 } }
  else if addr ≤ 0x3fff then
    (M.bus.ppu.write_register M.bus.mapper addr data).map fun pm =>
      { M with bus := { M.bus with ppu := pm.1, mapper := pm.2 } }
  else if addr ≤ 0x4013 then some M
  else if addr == 0x4014 then
    (M.read_page data).bind fun page =>
      (M.bus.ppu.write_dma page).map fun ppu2 =>
        { M with bus := { M.bus with ppu := ppu2 } }
  else if addr == 0x4016 then
    some { M with bus := { M.bus with controller := M.bus.controller.write data } }
  else if addr == 0x4017 then some M
  else if 0x4018 ≤ addr ∧ addr ≤ 0x401f then some M
  else
    -- the remaining addresses ($4015 and $4020..) fall through to the mapper
    (M.bus.mapper.write addr data).map fun m2 =>
      { M with bus := { M.bus with mapper := m2 } }

/-- `CPU::push_byte`. -/
def Machine.push_byte (M : Machine) (data : Nat) : Option Machine :=
  (M.write_byte (M.cpu.sp ||| 0x100) data).map fun M2 =>
    { M2 with cpu := { M2.cpu with sp := wsub8 M2.cpu.sp 1 } }

/-- `CPU::pull_byte`. -/
def Machine.pull_byte (M : Machine) : Option (Nat × Machine) :=
  let M1 := { M with cpu := { M.cpu with sp := wadd8 M.cpu.sp 1 } }
  M1.read_byte (M1.cpu.sp ||| 0x100)

/-- `CPU::push_address`. -/
def Machine.push_address (M : Machine) (addr : Nat) : Option Machine :=
  (M.push_byte (hi8 addr)).bind fun M2 => M2.push_byte (addr % 256)

/-- `CPU::pull_address`. -/
def Machine.pull_address (M : Machine) : Option (Nat × Machine) :=
  (M.pull_byte).bind fun lo =>
    (lo.2.pull_byte).map fun hi => (lo.1 ||| (hi.1 <<< 8), hi.2)

/-- `CPU::branch_on_flag`: taken branches cost one extra cycle, plus one
more when the target page differs from that of the following
instruction (`self.pc` is already past the branch here). -/
def Machine.branch_on_flag (M : Machine) (flag : StatusFlags)
    (branch_status : Bool) (new_pc : Nat) : Machine :=
  if M.cpu.check_status_bit flag == branch_status then
    { M with cpu :=
        { M.cpu with
          cycles := w64 (M.cpu.cycles + 1 +
            (if crosses_page_boundary M.cpu.pc new_pc then 1 else 0)),
          pc := new_pc } }
  else M

/-- `enum Opcode` (from the dispatch arms of cpu.rs). -/
inductive Opcode where
  | ADC | AHX | ALR | ANC | AND | ARR | ASL | AXS
  | BCC | BCS | BEQ | BIT | BMI | BNE | BPL | BRK | BVC | BVS
  | CLC | CLD | CLI | CLV | CMP | CPX | CPY
  | DCP | DEC | DEX | DEY | EOR | INC | INX | INY | ISB
  | JMP | JSR | LAS | LAX | LDA | LDX | LDY | LSR | NOP | ORA
  | PHA | PHP | PLA | PLP | RLA | ROL | ROR | RRA | RTI | RTS
  | SAX | SBC | SEC | SED | SEI | SHX | SHY | SLO | SRE
  | STA | STP | STX | STY | TAS | TAX | TAY | TSX | TXA | TXS | TYA | XAA
  deriving DecidableEq, Repr

/-- Recursion depth of compound (illegal / interrupt-like) opcodes whose
dispatch re-dispatches simple ones. -/
def Opcode.rank : Opcode → Nat
  | .BRK | .DCP | .ISB | .RLA | .RRA | .RTI | .SLO | .SRE => 1
  | _ => 0

/-- `enum AddressingMode` (thirteen modes). -/
inductive AddressingMode where
  | Implied | Accumulator | Immediate
  | ZeroPage | ZeroPageIndexedX | ZeroPageIndexedY
  | Absolute | AbsoluteIndexedX | AbsoluteIndexedY
  | Indirect | IndexedIndirect | IndirectIndexed | Relative
  deriving DecidableEq, Repr

/-- One entry of the 256-slot `EXTENDED_OPCODES` table.  The table lives
in the repository's instructions.rs, which is not under src/, so it is
left abstract: theorems quantify over it. -/
structure ExtendedOpcode where
  opcode : Opcode
  addressing_mode : AddressingMode
  min_cycles : Nat
  page_boundary_penalty : Bool
  deriving DecidableEq, Repr

/-- `struct DecodedInstruction` (the debug-only `address_info` field is
omitted; it feeds only the trace logger). -/
structure DecodedInstruction where
  extended_opcode : ExtendedOpcode
  width : Nat
  page_boundary_hit : Bool
  final_address : Option Nat
  deriving DecidableEq, Repr

/-- `CPU::decode` over an opcode table `tbl`. -/
def Machine.decode (tbl : Nat → ExtendedOpcode) (M : Machine) (addr : Nat) :
    Option (DecodedInstruction × Machine) :=
  let operand_addr := wadd16 addr 1
  (M.read_byte addr).bind fun ob =>
    let extended_opcode := tbl ob.1
    let M1 := ob.2
    match extended_opcode.addressing_mode with
    | .Absolute =>
        (M1.read_address operand_addr).map fun r =>
          (⟨extended_opcode, 3, false, some r.1⟩, r.2)
    | .Implied => some (⟨extended_opcode, 1, false, none⟩, M1)
    | .Accumulator => some (⟨extended_opcode, 1, false, none⟩, M1)
    | .AbsoluteIndexedX =>
        (M1.read_address operand_addr).map fun r =>
          let indirect := r.1
          let address := wadd16 indirect M1.cpu.x
          (⟨extended_opcode, 3,
            extended_opcode.page_boundary_penalty &&
              crosses_page_boundary indirect address, some address⟩, r.2)
    | .AbsoluteIndexedY =>
        (M1.read_address operand_addr).map fun r =>
          let indirect := r.1
          let address := wadd16 indirect M1.cpu.y
          (⟨extended_opcode, 3,
            extended_opcode.page_boundary_penalty &&
              crosses_page_boundary indirect address, some address⟩, r.2)
    | .Immediate =>
        some (⟨extended_opcode, 2, false, some operand_addr⟩, M1)
    | .IndexedIndirect =>
        (M1.read_byte operand_addr).bind fun ofr =>
          let indirect := wadd8 ofr.1 ofr.2.cpu.x
          (ofr.2.read_address_indirect indirect).map fun r =>
            (⟨extended_opcode, 2, false, some r.1⟩, r.2)
    | .Indirect =>
        (M1.read_address operand_addr).bind fun ir =>
          (ir.2.read_address_indirect ir.1).map fun r =>
            (⟨extended_opcode, 3, false, some r.1⟩, r.2)
    | .IndirectIndexed =>
        (M1.read_byte operand_addr).bind fun ofr =>
          (ofr.2.read_address_indirect ofr.1).map fun r =>
            let indirect := r.1
            let address := wadd16 indirect r.2.cpu.y
            (⟨extended_opcode, 2,
              extended_opcode.page_boundary_penalty &&
                crosses_page_boundary indirect address, some address⟩, r.2)
    | .Relative =>
        (M1.read_byte operand_addr).map fun ofr =>
          let offset := ofr.1
          let next_pc := wadd16 addr 2
          let address := if offset ≥ 0x80 then wsub16 next_pc (0x100 - offset)
                         else wadd16 next_pc offset
          (⟨extended_opcode, 2, false, some address⟩, ofr.2)
    | .ZeroPage =>
        (M1.read_byte operand_addr).map fun r =>
          (⟨extended_opcode, 2, false, some r.1⟩, r.2)
    | .ZeroPageIndexedX =>
        (M1.read_byte operand_addr).map fun r =>
          (⟨extended_opcode, 2, false, some (wadd8 r.1 r.2.cpu.x)⟩, r.2)
    | .ZeroPageIndexedY =>
        (M1.read_byte operand_addr).map fun r =>
          (⟨extended_opcode, 2, false, some (wadd8 r.1 r.2.cpu.y)⟩, r.2)

def Machine.mapCpu (M : Machine) (f : CPU → CPU) : Machine :=
  { M with cpu := f M.cpu }

/-- Non-compound arms of `CPU::dispatch`, one per (opcode, operand)
pattern of the source; `none` models both `todo!()` (unimplemented
illegals) and the `unreachable!` catch-all.  The compound opcodes, which
the source dispatches recursively, live in `Machine.dispatch` below (the
split keeps every call kernel-reducible; the recursion depth is one). -/
def Machine.dispatchSimple (M : Machine) (opcode : Opcode) (addr : Option Nat) :
    Option Machine :=
  match opcode, addr with
  | .ADC, some addr =>
      (M.read_byte addr).map fun br =>
        let M2 := br.2
        let a := M2.cpu.a
        let b := br.1
        let c := if M2.cpu.check_status_bit .C then 1 else 0
        let sum := a + b + c
        M2.mapCpu fun cp =>
          (({ cp with a := w8 sum }).write_status_bit .V
            (((a ^^^ sum) &&& (b ^^^ sum) &&& 0x80) != 0)).set_cnz sum
  | .AHX, _ => none
  | .ALR, _ => none
  | .ANC, _ => none
  | .AND, some addr =>
      (M.read_byte addr).map fun br =>
        br.2.mapCpu fun cp =>
          ({ cp with a := cp.a &&& br.1 }).set_nz (cp.a &&& br.1)
  | .ARR, _ => none
  | .ASL, none =>
      let wide := M.cpu.a <<< 1
      some (M.mapCpu fun cp => ({ cp with a := w8 wide }).set_cnz wide)
  | .ASL, some addr =>
      (M.read_byte addr).bind fun br =>
        let wide := br.1 <<< 1
        (br.2.write_byte addr (w8 wide)).map fun M3 =>
          M3.mapCpu fun cp => cp.set_cnz wide
  | .AXS, _ => none
  | .BCC, some addr => some (M.branch_on_flag .C false addr)
  | .BCS, some addr => some (M.branch_on_flag .C true addr)
  | .BEQ, some addr => some (M.branch_on_flag .Z true addr)
  | .BIT, some addr =>
      (M.read_byte addr).map fun br =>
        br.2.mapCpu fun cp =>
          (((cp.write_status_bit .Z ((cp.a &&& br.1) == 0)).write_status_bit .V
            ((br.1 &&& 0x40) != 0)).write_status_bit .N ((br.1 &&& 0x80) != 0))
  | .BMI, some addr => some (M.branch_on_flag .N true addr)
  | .BNE, some addr => some (M.branch_on_flag .Z false addr)
  | .BPL, some addr => some (M.branch_on_flag .N false addr)
  | .BVC, some addr => some (M.branch_on_flag .V false addr)
  | .BVS, some addr => some (M.branch_on_flag .V true addr)
  | .CLC, none => some (M.mapCpu fun cp => cp.write_status_bit .C false)
  | .CLD, none => some (M.mapCpu fun cp => cp.write_status_bit .D false)
  | .CLI, none => some (M.mapCpu fun cp => cp.write_status_bit .I false)
  | .CLV, none => some (M.mapCpu fun cp => cp.write_status_bit .V false)
  | .CMP, some addr =>
      (M.read_byte addr).map fun br =>
        br.2.mapCpu fun cp =>
          ((cp.set_nz (wsub8 cp.a br.1)).write_status_bit .C (cp.a ≥ br.1))
  | .CPX, some addr =>
      (M.read_byte addr).map fun br =>
        br.2.mapCpu fun cp =>
          ((cp.set_nz (wsub8 cp.x br.1)).write_status_bit .C (cp.x ≥ br.1))
  | .CPY, some addr =>
      (M.read_byte addr).map fun br =>
        br.2.mapCpu fun cp =>
          ((cp.set_nz (wsub8 cp.y br.1)).write_status_bit .C (cp.y ≥ br.1))
  | .DEC, some addr =>
      (M.read_byte addr).bind fun br =>
        let m2 := wsub8 br.1 1
        (br.2.write_byte addr m2).map fun M3 =>
          M3.mapCpu fun cp => cp.set_nz m2
  | .DEX, none =>
      some (M.mapCpu fun cp =>
        ({ cp with x := wsub8 cp.x 1 }).set_nz (wsub8 cp.x 1))
  | .DEY, none =>
      some (M.mapCpu fun cp =>
        ({ cp with y := wsub8 cp.y 1 }).set_nz (wsub8 cp.y 1))
  | .EOR, some addr =>
      (M.read_byte addr).map fun br =>
        br.2.mapCpu fun cp =>
          ({ cp with a := cp.a ^^^ br.1 }).set_nz (cp.a ^^^ br.1)
  | .INC, some addr =>
      (M.read_byte addr).bind fun br =>
        let m2 := wadd8 br.1 1
        (br.2.write_byte addr m2).map fun M3 =>
          M3.mapCpu fun cp => cp.set_nz m2
  | .INX, none =>
      some (M.mapCpu fun cp =>
        ({ cp with x := wadd8 cp.x 1 }).set_nz (wadd8 cp.x 1))
  | .INY, none =>
      some (M.mapCpu fun cp =>
        ({ cp with y := wadd8 cp.y 1 }).set_nz (wadd8 cp.y 1))
  | .JMP, some addr => some (M.mapCpu fun cp => { cp with pc := addr })
  | .JSR, some addr =>
      (M.push_address (wsub16 M.cpu.pc 1)).map fun M2 =>
        M2.mapCpu fun cp => { cp with pc := addr }
  | .LAS, _ => none
  | .LAX, some addr =>
      (M.read_byte addr).map fun br =>
        br.2.mapCpu fun cp =>
          ({ cp with a := br.1, x := br.1 }).set_nz br.1
  | .LDA, some addr =>
      (M.read_byte addr).map fun br =>
        br.2.mapCpu fun cp => ({ cp with a := br.1 }).set_nz br.1
  | .LDX, some addr =>
      (M.read_byte addr).map fun br =>
        br.2.mapCpu fun cp => ({ cp with x := br.1 }).set_nz br.1
  | .LDY, some addr =>
      (M.read_byte addr).map fun br =>
        br.2.mapCpu fun cp => ({ cp with y := br.1 }).set_nz br.1
  | .LSR, none =>
      let wide0 := M.cpu.a
      let wide := (wide0 >>> 1) ||| ((wide0 &&& 0b1) <<< 8)
      some (M.mapCpu fun cp => ({ cp with a := w8 wide }).set_cnz wide)
  | .LSR, some addr =>
      (M.read_byte addr).bind fun br =>
        let wide := (br.1 >>> 1) ||| ((br.1 &&& 0b1) <<< 8)
        (br.2.write_byte addr (w8 wide)).map fun M3 =>
          M3.mapCpu fun cp => cp.set_cnz wide
  | .NOP, _ => some M
  | .ORA, some addr =>
      (M.read_byte addr).map fun br =>
        br.2.mapCpu fun cp =>
          ({ cp with a := cp.a ||| br.1 }).set_nz (cp.a ||| br.1)
  | .PHA, none => M.push_byte M.cpu.a
  | .PHP, none => M.push_byte (M.cpu.status ||| (1 <<< StatusFlags.B.bit))
  | .PLA, none =>
      (M.pull_byte).map fun br =>
        br.2.mapCpu fun cp => ({ cp with a := br.1 }).set_nz br.1
  | .PLP, none =>
      (M.pull_byte).map fun br =>
        br.2.mapCpu fun cp =>
          (({ cp with status := br.1 }).write_status_bit .U true).write_status_bit
            .B false
  | .ROL, none =>
      let wide := (M.cpu.a <<< 1) |||
        (if M.cpu.check_status_bit .C then 1 else 0)
      some (M.mapCpu fun cp => ({ cp with a := w8 wide }).set_cnz wide)
  | .ROL, some addr =>
      (M.read_byte addr).bind fun br =>
        let wide := (br.1 <<< 1) |||
          (if br.2.cpu.check_status_bit .C then 1 else 0)
        (br.2.write_byte addr (w8 wide)).map fun M3 =>
          M3.mapCpu fun cp => cp.set_cnz wide
  | .ROR, some addr =>
      (M.read_byte addr).bind fun br =>
        let w0 := br.1 ||| ((if br.2.cpu.check_status_bit .C then 1 else 0) <<< 8)
        let w1 := w0 ||| ((w0 &&& 0b1) <<< 9)
        let wide := w1 >>> 1
        (br.2.write_byte addr (w8 wide)).map fun M3 =>
          M3.mapCpu fun cp => cp.set_cnz wide
  | .ROR, none =>
      let w0 := M.cpu.a ||| ((if M.cpu.check_status_bit .C then 1 else 0) <<< 8)
      let w1 := w0 ||| ((w0 &&& 0b1) <<< 9)
      let wide := w1 >>> 1
      some (M.mapCpu fun cp => ({ cp with a := w8 wide }).set_cnz wide)
  | .RTS, none =>
      (M.pull_address).map fun r =>
        r.2.mapCpu fun cp => { cp with pc := wadd16 r.1 1 }
  | .SAX, some addr => M.write_byte addr (M.cpu.a &&& M.cpu.x)
  | .SBC, some addr =>
      (M.read_byte addr).map fun br =>
        let M2 := br.2
        let a := M2.cpu.a
        let m := br.1
        let borrow := if M2.cpu.check_status_bit .C then 0 else 1
        let result := wsub16 (wsub16 a m) borrow
        M2.mapCpu fun cp =>
          ((({ cp with a := w8 result }).set_nz (w8 result)).write_status_bit .V
            (((a ^^^ result) &&& (bnot16 m ^^^ result) &&& 0x80) != 0)).write_status_bit
            .C ((result &&& 0x100) == 0)
  | .SEC, none => some (M.mapCpu fun cp => cp.write_status_bit .C true)
  | .SED, none => some (M.mapCpu fun cp => cp.write_status_bit .D true)
  | .SEI, none => some (M.mapCpu fun cp => cp.write_status_bit .I true)
  | .SHX, _ => none
  | .SHY, _ => none
  | .STA, some addr => M.write_byte addr M.cpu.a
  | .STP, some addr => M.write_byte addr M.cpu.status
  | .STX, some addr => M.write_byte addr M.cpu.x
  | .STY, some addr => M.write_byte addr M.cpu.y
  | .TAS, _ => none
  | .TAX, none =>
      some (M.mapCpu fun cp => ({ cp with x := cp.a }).set_nz cp.a)
  | .TAY, none =>
      some (M.mapCpu fun cp => ({ cp with y := cp.a }).set_nz cp.a)
  | .TSX, none =>
      some (M.mapCpu fun cp => ({ cp with x := cp.sp }).set_nz cp.sp)
  | .TXA, none =>
      some (M.mapCpu fun cp => ({ cp with a := cp.x }).set_nz cp.x)
  | .TXS, none => some (M.mapCpu fun cp => { cp with sp := cp.x })
  | .TYA, none =>
      some (M.mapCpu fun cp => ({ cp with a := cp.y }).set_nz cp.y)
  | .XAA, _ => none
  | _, _ => none

/-- `CPU::dispatch`: the compound opcodes (BRK, DCP, ISB, RLA, RRA, RTI,
SLO, SRE) are implemented by composition of the simple ones, exactly as
the source re-dispatches them; every other pattern is a simple arm. -/
def Machine.dispatch (M : Machine) (opcode : Opcode) (addr : Option Nat) :
    Option Machine :=
  match opcode, addr with
  | .BRK, none =>
      (M.push_address M.cpu.pc).bind fun M2 =>
        (M2.dispatchSimple .PHP none).bind fun M3 =>
          let M4 := M3.mapCpu fun cp => cp.write_status_bit .I true
          (M4.read_address 0xfffe).map fun r =>
            r.2.mapCpu fun cp => { cp with pc := r.1 }
  | .DCP, some addr =>
      (M.dispatchSimple .DEC (some addr)).bind fun M2 =>
        M2.dispatchSimple .CMP (some addr)
  | .ISB, some addr =>
      (M.dispatchSimple .INC (some addr)).bind fun M2 =>
        M2.dispatchSimple .SBC (some addr)
  | .RLA, optAddr =>
      (M.dispatchSimple .ROL optAddr).bind fun M2 =>
        M2.dispatchSimple .AND optAddr
  | .RRA, some addr =>
      (M.dispatchSimple .ROR (some addr)).bind fun M2 =>
        M2.dispatchSimple .ADC (some addr)
  | .RTI, none =>
      (M.dispatchSimple .PLP none).bind fun M2 =>
        (M2.pull_address).map fun r =>
          r.2.mapCpu fun cp => { cp with pc := r.1 }
  | .SLO, some addr =>
      (M.dispatchSimple .ASL (some addr)).bind fun M2 =>
        M2.dispatchSimple .ORA (some addr)
  | .SRE, some addr =>
      (M.dispatchSimple .LSR (some addr)).bind fun M2 =>
        M2.dispatchSimple .EOR (some addr)
  | o, a => M.dispatchSimple o a

/-- `CPU::step` (no trace logger): NMI service if the PPU raised the
line, otherwise decode, advance PC, charge cycles, dispatch; returns the
cycle count consumed (`cycles.wrapping_sub(pre) as u16`). -/
def Machine.step (tbl : Nat → ExtendedOpcode) (M : Machine) :
    Option (Machine × Nat) :=
  let nl := M.bus.ppu.read_nmi_line
  let M := { M with bus := { M.bus with ppu := nl.2 } }
  if nl.1 then
    (M.push_address M.cpu.pc).bind fun M2 =>
      (M2.dispatch .PHP none).bind fun M3 =>
        (M3.read_address 0xFFFA).map fun r =>
          let M4 := r.2.mapCpu fun cp =>
            ((({ cp with pc := r.1 }).write_status_bit .I true))
          let M5 := M4.mapCpu fun cp =>
            { cp with cycles := w64 (cp.cycles + 7) }
          (M5, 7)
  else
    let pre_cycles := M.cpu.cycles
    (M.decode tbl M.cpu.pc).bind fun dr =>
      let instr := dr.1
      let M1 := dr.2.mapCpu fun cp =>
        { cp with
          pc := wadd16 cp.pc instr.width,
          cycles := w64 (cp.cycles + instr.extended_opcode.min_cycles +
            (if instr.page_boundary_hit then 1 else 0)) }
      (M1.dispatch instr.extended_opcode.opcode instr.final_address).map fun M2 =>
        (M2, w16 (wsub64 M2.cpu.cycles pre_cycles))

/-! ## console.rs -/

/-- `struct ConsoleState { bus, cpu }` is exactly the CPU-plus-bus pair. -/
abbrev ConsoleState := Machine

/-- Run `n` PPU dots. -/
def ppuStepN : Nat → Machine → Option Machine
  | 0, M => some M
  | n + 1, M =>
      (M.bus.ppu.step M.bus.mapper).bind fun p2 =>
        ppuStepN n { M with bus := { M.bus with ppu := p2 } }

/-- `ConsoleState::step`: one CPU step, then three PPU dots per cycle. -/
def ConsoleState.step (tbl : Nat → ExtendedOpcode) (M : ConsoleState) :
    Option ConsoleState :=
  (Machine.step tbl M).bind fun r => ppuStepN (3 * r.2) r.1

/-- First loop of `ConsoleState::wait_vblank` (`while in_vblank`),
bounded by fuel. -/
def waitLeaveVblank (tbl : Nat → ExtendedOpcode) :
    Nat → ConsoleState → Option ConsoleState
  | 0, _ => none
  | fuel + 1, M =>
      if M.bus.ppu.in_vblank then
        (ConsoleState.step tbl M).bind (waitLeaveVblank tbl fuel)
      else some M

/-- Second loop of `ConsoleState::wait_vblank` (`while !in_vblank`),
bounded by fuel. -/
def waitEnterVblank (tbl : Nat → ExtendedOpcode) :
    Nat → ConsoleState → Option ConsoleState
  | 0, _ => none
  | fuel + 1, M =>
      if !M.bus.ppu.in_vblank then
        (ConsoleState.step tbl M).bind (waitEnterVblank tbl fuel)
      else some M

/-- `ConsoleState::wait_vblank`: run to the next positive vblank edge. -/
def ConsoleState.wait_vblank (tbl : Nat → ExtendedOpcode) (fuel : Nat)
    (M : ConsoleState) : Option ConsoleState :=
  (waitLeaveVblank tbl fuel M).bind (waitEnterVblank tbl fuel)

/-- `Console::update_buttons`. -/
def ConsoleState.update_buttons (M : ConsoleState) (state : Nat) : ConsoleState :=
  { M with bus := { M.bus with controller := M.bus.controller.update_buttons state } }

/-- `Console::snapshot`: a deep copy of the console state (clone of a
pure value). -/
def ConsoleState.snapshot (M : ConsoleState) : ConsoleState := M

/-- Backup reads of `Console::restore_snapshot` through the CPU bus
(interior-mutability effects thread through the old state). -/
def readBackupCpu : Machine → List Nat → Option (List Nat × Machine)
  | M, [] => some ([], M)
  | M, a :: rest =>
      (M.read_byte a).bind fun r =>
        (readBackupCpu r.2 rest).map fun q => (r.1 :: q.1, q.2)

/-- Backup reads of `Console::restore_snapshot` through the PPU bus
(`PPU::read_byte` is effect-free). -/
def readBackupPpu (M : Machine) : List Nat → Option (List Nat)
  | [] => some []
  | a :: rest =>
      (M.bus.ppu.read_byte M.bus.mapper a).bind fun v =>
        (readBackupPpu M rest).map (v :: ·)

/-- Write-back phase of `Console::restore_snapshot` on the CPU bus. -/
def writeBackCpu : Machine → List (Nat × Nat) → Option Machine
  | M, [] => some M
  | M, (a, d) :: rest =>
      (M.write_byte a d).bind fun M2 => writeBackCpu M2 rest

/-- Write-back phase of `Console::restore_snapshot` on the PPU bus. -/
def writeBackPpu : Machine → List (Nat × Nat) → Option Machine
  | M, [] => some M
  | M, (a, d) :: rest =>
      (M.bus.ppu.write_byte M.bus.mapper a d).bind fun pm =>
        writeBackPpu { M with bus := { M.bus with ppu := pm.1, mapper := pm.2 } } rest

/-- `Console::restore_snapshot`: read the preserve lists from the
current state, swap in the snapshot, write the preserved bytes back. -/
def ConsoleState.restore_snapshot (cur snap : ConsoleState)
    (cpu_ignore ppu_ignore : List Nat) : Option ConsoleState :=
  (readBackupCpu cur cpu_ignore).bind fun cb =>
    (readBackupPpu cb.2 ppu_ignore).bind fun pb =>
      (writeBackCpu snap (cpu_ignore.zip cb.1)).bind fun s2 =>
        writeBackPpu s2 (ppu_ignore.zip pb)

/-- Latch a button mask and run one `next_screen` call
(`Console::update_buttons` followed by `Console::next_screen`, whose
screen is the PPU-rendered frame; the rewind-tape push does not affect
the returned state or screen). -/
def ConsoleState.next_frame (tbl : Nat → ExtendedOpcode) (fuel buttons : Nat)
    (M : ConsoleState) : Option (ConsoleState × Screen) :=
  ((M.update_buttons buttons).wait_vblank tbl fuel).map fun M2 =>
    (M2, M2.bus.ppu.pending_screen)

/-! ## snapshot.rs -/

/-- One RLE run of button masks (`struct ButtonSequence`). -/
structure ButtonSequence where
  buttons : Nat
  count : Nat
  deriving DecidableEq, Repr

/-- `struct Checkpoint`, generic over the console-state type. -/
structure Checkpoint (σ : Type) where
  base_state : σ
  buttons_rle : List ButtonSequence
  deriving DecidableEq, Repr

/-- The console operations the rewind tape uses; the tape treats the
console as a black box through exactly these three calls. -/
structure FrameSim (σ : Type) where
  buttonState : σ → Nat
  updateButtons : σ → Nat → σ
  waitVblank : σ → σ

/-- `struct RewindTape`.  `prev_decoded`/`prev_rle` are the two halves
of `previous_checkpoint`. -/
structure RewindTape (σ : Type) where
  stored_checkpoints : List (Checkpoint σ)
  prev_decoded : List (σ × Nat)
  prev_rle : List ButtonSequence
  snapshot_cache : List (σ × Nat)
  cache_size : Nat
  frames : Nat
  deriving DecidableEq, Repr

/-- `RewindTape::new`. -/
def RewindTape.new (σ : Type) (initial_step : Nat) : RewindTape σ :=
  ⟨[], [], [], [], initial_step, 0⟩

/-- `RewindTape::push_back`. -/
def RewindTape.push_back {σ : Type} (ops : FrameSim σ) (t : RewindTape σ)
    (state : σ) : RewindTape σ :=
  let buttons := ops.buttonState state
  -- move one expanded snapshot of the previous checkpoint into its RLE,
  -- or finalize the checkpoint once the working area empties
  let t :=
    match t.prev_decoded.getLast? with
    | some (base_state, next_buttons) =>
        let decoded2 := t.prev_decoded.dropLast
        if decoded2.isEmpty then
          { t with prev_decoded := decoded2, prev_rle := [],
                   stored_checkpoints :=
                     t.stored_checkpoints ++
                       [(⟨base_state, t.prev_rle⟩ : Checkpoint σ)] }
        else
          match t.prev_rle with
          | r :: rest =>
              if r.buttons == next_buttons && r.count < 255 then
                { t with prev_decoded := decoded2,
                         prev_rle := { r with count := r.count + 1 } :: rest }
              else
                { t with prev_decoded := decoded2,
                         prev_rle := ⟨next_buttons, 1⟩ :: r :: rest }
          | [] =>
              { t with prev_decoded := decoded2, prev_rle := [⟨next_buttons, 1⟩] }
    | none => t
  -- append to the snapshot cache, or swap it into the working area when full
  let t :=
    if t.snapshot_cache.length < t.cache_size then
      { t with snapshot_cache := t.snapshot_cache ++ [(state, buttons)] }
    else
      { t with prev_decoded := t.snapshot_cache, prev_rle := [],
               cache_size := t.cache_size + 1,
               snapshot_cache := [(state, buttons)] }
  { t with frames := t.frames + 1 }

/-- `RewindTape::pop_back`: pop the newest snapshot, re-simulating one
frame from the RLE zone (or reloading a stored checkpoint) to keep the
working area decoded. -/
def RewindTape.pop_back {σ : Type} (ops : FrameSim σ) (t : RewindTape σ) :
    Option (σ × RewindTape σ) :=
  (t.snapshot_cache.getLast?).map fun latest =>
    let t := { t with snapshot_cache := t.snapshot_cache.dropLast }
    -- pull the decoded previous checkpoint into the cache if it emptied
    let t :=
      if t.snapshot_cache.isEmpty && !t.prev_decoded.isEmpty then
        { t with snapshot_cache := t.prev_decoded, prev_rle := [],
                 cache_size := t.cache_size - 1, prev_decoded := [] }
      else t
    let t :=
      match t.prev_decoded.getLast?, t.prev_rle with
      | some (prev_state, _), nb :: rest =>
          let next_state := ops.waitVblank (ops.updateButtons prev_state nb.buttons)
          { t with
            prev_decoded := t.prev_decoded ++ [(next_state, nb.buttons)],
            prev_rle :=
              if nb.count > 0 then { nb with count := nb.count - 1 } :: rest
              else rest }
      | _, _ =>
          match t.stored_checkpoints.getLast? with
          | some cp =>
              { t with
                stored_checkpoints := t.stored_checkpoints.dropLast,
                prev_decoded := [(cp.base_state, ops.buttonState cp.base_state)],
                prev_rle := cp.buttons_rle }
          | none => t
    (latest.1, { t with frames := t.frames - 1 })

/-! ## ines.rs -/

/-- `const MAGIC`. -/
def inesMagic : List Nat := [0x4e, 0x45, 0x53, 0x1a]

/-- The cartridge record as ines.rs builds it (plain bank vectors). -/
structure INESCartridge where
  prg : List (List Nat)
  chr : List (List Nat)
  sram : List (List Nat)
  mirror : MirroringMode
  deriving DecidableEq, Repr

/-- `struct INESHeader` (parsed fields only). -/
structure INESHeader where
  magic : List Nat
  prg_banks : Nat
  chr_banks : Nat
  mirror : Bool
  has_battery : Bool
  has_trainer : Bool
  four_screen_mirror : Bool
  vs_unisystem : Bool
  playchoice10 : Bool
  nes2 : Bool
  ram_size : Nat
  pal : Bool
  tv_system_prg_ram_presence : Nat
  mapper : Nat
  deriving DecidableEq, Repr

/-- `Read::read_exact` over a byte list. -/
def readExact (n : Nat) (input : List Nat) : Option (List Nat × List Nat) :=
  if n ≤ input.length then some (input.take n, input.drop n) else none

/-- `INESHeader::parse`.  The source assigns `has_battery` twice (bit 1,
then bit 2) and `mapper` twice (`buffer[6] >> 4`, then `buffer[7] >> 4`);
the later assignment wins each time, as recorded here. -/
def INESHeader.parse (input : List Nat) :
    Option (INESHeader × List Nat) :=
  (readExact 16 input).bind fun br =>
    let buffer := br.1
    if buffer.take 4 == inesMagic then
      some
        ({ magic := buffer.take 4
           prg_banks := buffer.getD 4 0
           chr_banks := buffer.getD 5 0
           mirror := (buffer.getD 6 0 &&& 0b0001) != 0
           has_battery := (buffer.getD 6 0 &&& 0b0100) != 0
           has_trainer := (buffer.getD 6 0 &&& 0b0100) != 0
           four_screen_mirror := (buffer.getD 6 0 &&& 0b1000) != 0
           vs_unisystem := (buffer.getD 7 0 &&& 0b0001) != 0
           playchoice10 := (buffer.getD 7 0 &&& 0b0010) != 0
           nes2 := (buffer.getD 7 0 &&& 0b1100) == 0b1000
           ram_size := buffer.getD 8 0
           pal := (buffer.getD 9 0 &&& 0b1) != 0
           tv_system_prg_ram_presence := buffer.getD 10 0
           mapper := buffer.getD 7 0 >>> 4 }, br.2)
    else none

/-- Read `count` banks of `size` bytes each. -/
def readBanks (size : Nat) : Nat → List Nat → Option (List (List Nat) × List Nat)
  | 0, input => some ([], input)
  | n + 1, input =>
      (readExact size input).bind fun r =>
        (readBanks size n r.2).map fun q => (r.1 :: q.1, q.2)

/-- `INESHeader::read`: trainer images are rejected, PRG then CHR banks
are scanned in, and a missing CHR section becomes one zeroed CHR-RAM
bank.  The `sram` banks are left uninitialized by the source; they are
zeroed here and never read. -/
def INESHeader.readBody (h : INESHeader) (input : List Nat) :
    Option INESCartridge :=
  let mirror : MirroringMode :=
    match h.four_screen_mirror, h.mirror with
    | true, _ => .FourScreen
    | false, false => .Horizontal
    | false, true => .Vertical
  if h.has_trainer then none
  else
    (readBanks 0x4000 h.prg_banks input).bind fun pr =>
      (readBanks 0x2000 h.chr_banks pr.2).map fun cr =>
        let chr := if cr.1.length == 0 then [List.replicate 8192 0] else cr.1
        { prg := pr.1, chr := chr,
          sram := List.replicate h.ram_size (List.replicate 0x2000 0),
          mirror := mirror }

/-- `fn load`: parse the header, read the body, return the cartridge and
the mapper number. -/
def inesLoad (input : List Nat) : Option (INESCartridge × Nat) :=
  (INESHeader.parse input).bind fun hr =>
    (hr.1.readBody hr.2).map fun c => (c, hr.1.mapper)

/-! ## Concrete fixtures used by the theorems -/

/-- A one-bank NROM cartridge with CHR RAM and horizontal mirroring. -/
def testCart : Cartridge :=
  ⟨[List.replicate 0x4000 7], CHR.ram [List.replicate 0x2000 0], [], .Horizontal⟩

def testMapper : Mapper := .nrom ⟨testCart, 0, 0⟩

def fourScreenMapper : Mapper := .nrom ⟨{ testCart with mirror := .FourScreen }, 0, 0⟩

/-- A freshly constructed machine (default CPU and PPU over `testMapper`). -/
def testMachine : Machine :=
  ⟨CPU.default, ⟨testMapper, PPU.default, (), Controller.default⟩⟩

/-- A tiny deterministic console model for exercising the rewind tape:
a state is (value, latched buttons); a frame doubles the value and
absorbs the buttons, so distinct histories give distinct states. -/
def tapeOps : FrameSim (Nat × Nat) :=
  ⟨Prod.snd, fun s b => (s.1, b), fun s => (2 * s.1 + s.2 + 1, s.2)⟩

/-- One recorded frame: latch the buttons, then simulate to the next
vblank (exactly how `RewindTape::pop_back` re-simulates). -/
def tapeFrame (s : Nat × Nat) (b : Nat) : Nat × Nat :=
  tapeOps.waitVblank (tapeOps.updateButtons s b)

/-- A seven-frame forward trace (each state is produced from the
previous one by `tapeFrame` with the buttons latched in it). -/
def tapeTrace : List (Nat × Nat) :=
  let s1 := (1, 0)
  let s2 := tapeFrame s1 0
  let s3 := tapeFrame s2 1
  let s4 := tapeFrame s3 0
  let s5 := tapeFrame s4 1
  let s6 := tapeFrame s5 0
  let s7 := tapeFrame s6 1
  [s1, s2, s3, s4, s5, s6, s7]

/-- The tape after pushing the whole trace onto a fresh
`RewindTape::new(1)`. -/
def tapePushed : RewindTape (Nat × Nat) :=
  tapeTrace.foldl (RewindTape.push_back tapeOps) (RewindTape.new (Nat × Nat) 1)

/-- Pop `n` states off a tape, newest first. -/
def popAll {σ : Type} (ops : FrameSim σ) : Nat → RewindTape σ → List σ
  | 0, _ => []
  | n + 1, t =>
      match RewindTape.pop_back ops t with
      | some (s, t2) => s :: popAll ops n t2
      | none => []

/-- PPU with a PPUSTATUS value that distinguishes register reads. -/
def statusPPU : PPU := { PPU.default with status_reg := 0x80 }

/-- PPU about to read PPUDATA: `v = $2000`, the nametable byte at the
current location is 5 and at the next location is 9. -/
def bufPPU : PPU :=
  { PPU.default with v := 0x2000, nametables := 5 :: 9 :: List.replicate 2046 0 }

/-- PPU at dot 257 of visible scanline 100 with rendering enabled and
the sprite-zero-hit status bit set; OAM is all zero, so no sprite is in
range on line 100. -/
def sprPPU : PPU :=
  { PPU.default with scanline := 100, cycle_in_scanline := 257,
                     mask_reg := 0x18, status_reg := 0x40 }

/-- A 16-byte iNES image: magic, 0 PRG banks, 0 CHR banks, byte 6 =
`$20` (mapper low nibble 2), byte 7 = `$10` (mapper high nibble 1). -/
def inesImage : List Nat :=
  [0x4e, 0x45, 0x53, 0x1a, 0, 0, 0x20, 0x10, 0, 0, 0, 0, 0, 0, 0, 0]

/-- Flag and polarity of each branch opcode, read off the corresponding
`branch_on_flag` dispatch arms. -/
def branchInfo : Opcode → Option (StatusFlags × Bool)
  | .BCC => some (.C, false)
  | .BCS => some (.C, true)
  | .BEQ => some (.Z, true)
  | .BNE => some (.Z, false)
  | .BMI => some (.N, true)
  | .BPL => some (.N, false)
  | .BVC => some (.V, false)
  | .BVS => some (.V, true)
  | _ => none

/-- Constant opcode table whose every entry is a relative-mode BCS
(min 2 cycles, no page penalty): enough to decode a branch at any pc. -/
def bcsTable : Nat → ExtendedOpcode := fun _ => ⟨.BCS, .Relative, 2, false⟩

/-! ## Claim theorems -/

/-- C1: the claim states that for every initial rewind tape and every
sequence of N ≥ 1 states pushed with `push_back`, the same number of
`pop_back` calls returns exactly the pushed sequence in reverse.  The
code violates this: pushing a genuine seven-frame forward trace onto a
fresh `RewindTape::new(1)` and popping seven times returns a sequence
whose fifth element re-simulates the RLE run `{buttons 1, count 1}` a
second time (the `if count > 0 { count -= 1 } else { pop }` off-by-one),
so the popped list is not the reverse of the pushed list. -/
theorem c1_rewind_roundtrip_fails :
    popAll tapeOps 7 tapePushed =
      [(148, 1), (73, 0), (36, 1), (17, 0), (18, 1), (8, 1), (3, 0)] ∧
    tapeTrace.reverse =
      [(148, 1), (73, 0), (36, 1), (17, 0), (8, 1), (3, 0), (1, 0)] ∧
    popAll tapeOps 7 tapePushed ≠ tapeTrace.reverse := by
  refine ⟨by decide, by decide, by decide⟩

/-- C2: restoring a snapshot with empty preserve lists replaces the
console state by the snapshot, so one subsequent `next_frame` with any
button mask produces a state and screen byte-for-byte equal to running
`next_frame` directly on the snapshotted state. -/
theorem c2_restore_snapshot_roundtrip (tbl : Nat → ExtendedOpcode)
    (fuel buttons : Nat) (cur S : ConsoleState) :
    ConsoleState.restore_snapshot cur (ConsoleState.snapshot S) [] [] = some S ∧
    (ConsoleState.restore_snapshot cur (ConsoleState.snapshot S) [] []).bind
        (ConsoleState.next_frame tbl fuel buttons) =
      ConsoleState.next_frame tbl fuel buttons S := by
  exact ⟨rfl, rfl⟩

/-- C3: the claim states that address decoding is total (no runtime
range error, no reachable `unreachable!`).  The code violates this: a
CPU write to `$2002` reaches the `unreachable!()` arm of
`PPU::write_register`; a PPU read of `$2800` under four-screen
mirroring indexes the 2 KiB nametable array at 2048; an OAM-DMA page
fetch for page `$BF` slices `prg[0x3F00..0x0000]`, which panics. -/
theorem c3_address_decoding_not_total :
    testMachine.write_byte 0x2002 0 = none ∧
    PPU.default.read_byte fourScreenMapper 0x2800 = none ∧
    testMachine.read_page 0xbf = none ∧
    testMachine.write_byte 0x4014 0xbf = none := by
  refine ⟨by decide, ?_, by decide, by decide⟩
  show PPU.default.read_byte fourScreenMapper 0x2800 = none
  unfold PPU.read_byte
  norm_num
  rw [show PPU.default.nametables = List.replicate 2048 0 from rfl,
    List.length_replicate,
    show PPU.mirror_nametable 10240 fourScreenMapper.mirror = 2048 from by decide]

/-- C4: the claim states that PPU register accesses through CPU
addresses $2000-$3FFF touch register `$2000 | (a & 7)`, so `$2008`-style
mirrors behave like their base register.  The code masks with `0xf`
instead: reading `$200A` (the would-be mirror of `$2002`) returns the
open-bus 0 instead of the status byte, and writing `$2008` (the
would-be mirror of `$2000`) panics in the `unreachable!()` arm while
writing `$2000` succeeds. -/
theorem c4_register_mirror_mask :
    ((statusPPU.read_register testMapper 0x200a).map Prod.fst = some 0) ∧
    ((statusPPU.read_register testMapper 0x2002).map Prod.fst = some 0x80) ∧
    statusPPU.write_register testMapper 0x2008 0 = none ∧
    (statusPPU.write_register testMapper 0x2000 0).isSome = true := by
  refine ⟨by decide, by decide, by decide, by decide⟩

/-- C7: the claim states that sprite evaluation at dot 257 leaves every
status bit other than sprite-overflow unchanged (sprite-zero-hit and
vblank being cleared only at dot 1 of the pre-render scanline).  The
code violates this: `find_sprites_in_line` executes
`status_reg &= 1 << 5`, which erases all bits except sprite-overflow,
so stepping `sprPPU` (status `$40`, sprite-zero-hit set) through dot
257 of visible scanline 100 clears the whole status register. -/
theorem c7_sprite_eval_clobbers_status :
    (sprPPU.step testMapper).map PPU.status_reg = some 0 ∧
    sprPPU.find_sprites_in_line.status_reg = 0 ∧
    sprPPU.status_reg = 0x40 ∧ (0x40 : Nat) ≠ 0 := by
  refine ⟨by decide, by decide, by decide, by decide⟩

/-- C8: the claim states that the loader composes the mapper number from
both header nibbles, `(byte7 & 0xF0) | (byte6 >> 4)`.  The code
violates this: `INESHeader::parse` first assigns
`mapper = buffer[6] >> 4` and then overwrites it with
`mapper = buffer[7] >> 4`, so the accepted image with byte 6 = `$20`
and byte 7 = `$10` loads with mapper 1 instead of the claimed `$12`. -/
theorem c8_ines_mapper_overwritten :
    (inesLoad inesImage).map Prod.snd = some 1 ∧
    (((0x10 : Nat) &&& 0xf0) ||| ((0x20 : Nat) >>> 4)) = 0x12 ∧
    (1 : Nat) ≠ 0x12 := by
  refine ⟨by decide, by decide, by decide⟩

/-- C5 counterexample: the claim states that a palette read after a
write of v returns `v & $3F`; writing `$FF` to `$3F00` and reading it
back returns `$FF`, not `$3F` (the code stores and returns the byte
unmasked). -/
theorem c5_palette_readback_counterexample :
    ((PPU.default.write_byte testMapper 0x3f00 0xff).bind fun pm =>
        pm.1.read_byte pm.2 0x3f00) = some 0xff ∧
    ((0xff : Nat) &&& 0x3f) = 0x3f ∧ (0xff : Nat) ≠ 0x3f := by
  refine ⟨by decide, by decide, by decide⟩

/-- C6 counterexample: the claim states that a PPUDATA read with v in
$0000-$3EFF refills the read buffer from the new (post-increment)
location.  With v = `$2000`, nametable byte 5 at the current location
and byte 9 at `$2001`, the read returns the old buffer and refills the
buffer with 5 - the byte at the pre-increment location - not with 9. -/
theorem c6_buffer_refill_counterexample :
    ((bufPPU.read_register testMapper 0x2007).map fun r =>
        (r.1, r.2.buffered_ppu_data)) = some (0, 5) ∧
    bufPPU.read_byte testMapper (wadd16 bufPPU.v 1) = some 9 ∧
    (5 : Nat) ≠ 9 := by
  refine ⟨by decide, by decide, by decide⟩

/-- In-bounds updates succeed, and reading the updated slot returns the
new value while the length is preserved. -/
theorem upd?_get_same (l : List Nat) (i v : Nat) (h : i < l.length) :
    ∃ l2, upd? l i v = some l2 ∧ l2.get? i = some v ∧ l2.length = l.length := by
  induction l generalizing i with
  | nil => simp at h
  | cons a rest ih =>
      cases i with
      | zero => exact ⟨v :: rest, rfl, rfl, rfl⟩
      | succ n =>
          have hn : n < rest.length := by simpa using h
          obtain ⟨l2, h1, h2, h3⟩ := ih n hn
          exact ⟨a :: l2, by simp [upd?, h1], by simpa using h2, by simp [h3]⟩

/-- The palette mirror never enlarges the offset. -/
theorem mirror_palette_le (x : Nat) : PPU.mirror_palette x ≤ x :=
  Nat.and_le_left

/-- Writing a palette byte and reading any offset that mirrors to the
same slot returns the byte that was written. -/
theorem palette_write_read (p : PPU) (m : Mapper) (o1 o2 v : Nat)
    (hp : p.palette_ram.length = 32) (h1 : o1 ≤ 0xff) (h2 : o2 ≤ 0xff)
    (heq : PPU.mirror_palette (w8 ((0x3f00 + o1) % 0x20)) =
      PPU.mirror_palette (w8 ((0x3f00 + o2) % 0x20))) :
    ((p.write_byte m (0x3f00 + o1) v).bind fun pm =>
        pm.1.read_byte pm.2 (0x3f00 + o2)) = some v := by
  have hs1 : PPU.mirror_palette (w8 ((0x3f00 + o1) % 0x20)) < 32 := by
    have hm : (0x3f00 + o1) % 0x20 < 32 := Nat.mod_lt _ (by norm_num)
    have hw : w8 ((0x3f00 + o1) % 0x20) = (0x3f00 + o1) % 0x20 :=
      Nat.mod_eq_of_lt (by omega)
    calc PPU.mirror_palette (w8 ((0x3f00 + o1) % 0x20))
        ≤ w8 ((0x3f00 + o1) % 0x20) := mirror_palette_le _
      _ < 32 := by rw [hw]; exact hm
  obtain ⟨pal, hu, hg, _⟩ :=
    upd?_get_same p.palette_ram (PPU.mirror_palette (w8 ((0x3f00 + o1) % 0x20))) v
      (by rw [hp]; exact hs1)
  unfold PPU.write_byte
  rw [if_neg (by omega), if_neg (by omega), hu]
  simp only [Option.map_some', Option.some_bind]
  unfold PPU.read_byte
  rw [if_neg (by omega), if_neg (by omega)]
  simpa [← heq] using hg

/-- C5 (amended): a palette read after a write of v to the same PPU
address returns v exactly - the code stores and returns the full byte,
with no `& $3F` masking - and the palette mirror law holds: offsets with
`(o & 0x13) == 0x10` alias `o & ~0x10`, so the written byte is also
readable at the mirrored offset. -/
theorem c5_palette_amended (p : PPU) (m : Mapper) (o v : Nat)
    (hp : p.palette_ram.length = 32) (ho : o ≤ 0xff) :
    ((p.write_byte m (0x3f00 + o) v).bind fun pm =>
        pm.1.read_byte pm.2 (0x3f00 + o)) = some v ∧
    (o < 0x20 → (o &&& 0x13) = 0x10 →
      PPU.mirror_palette o = o &&& 0xef ∧
      ((p.write_byte m (0x3f00 + o) v).bind fun pm =>
          pm.1.read_byte pm.2 (0x3f00 + (o &&& 0xef))) = some v) := by
  constructor
  · exact palette_write_read p m o o v hp ho ho rfl
  · intro h20 h13
    have halias : PPU.mirror_palette o = o &&& 0xef ∧
        PPU.mirror_palette (w8 ((0x3f00 + o) % 0x20)) =
          PPU.mirror_palette (w8 ((0x3f00 + (o &&& 0xef)) % 0x20)) := by
      revert h13
      interval_cases o <;> decide
    refine ⟨halias.1, palette_write_read p m o (o &&& 0xef) v hp ho ?_ halias.2⟩
    calc o &&& 0xef ≤ o := Nat.and_le_left
      _ ≤ 0xff := ho

/-- C5 witness: writing `$2A` to `$3F10` is readable at `$3F00`
(spec scenario 6), and direct readback at `$3F10` returns `$2A`. -/
theorem c5_palette_amended_witness :
    ((PPU.default.write_byte testMapper (0x3f00 + 0x10) 0x2a).bind fun pm =>
        pm.1.read_byte pm.2 (0x3f00 + (0x10 &&& 0xef))) = some 0x2a ∧
    ((PPU.default.write_byte testMapper (0x3f00 + 0x10) 0x2a).bind fun pm =>
        pm.1.read_byte pm.2 (0x3f00 + 0x10)) = some 0x2a :=
  ⟨((c5_palette_amended PPU.default testMapper 0x10 0x2a rfl (by norm_num)).2
      (by norm_num) (by decide)).2,
   (c5_palette_amended PPU.default testMapper 0x10 0x2a rfl (by norm_num)).1⟩

/-- C10: while the strobe is high (set by a write with bit 0 on), every
read returns bit 0 of the latched mask and leaves the controller - in
particular the cursor, reset to 0 by the strobe write - unchanged; with
the strobe low a read at cursor i returns bit i and advances the
cursor; once the cursor has passed 8 every read returns 0 and changes
nothing. -/
theorem c10_controller_strobe (c : Controller) (d : Nat) :
    ((d &&& 1) = 1 →
      (c.write d).strobe = true ∧ (c.write d).index = 0 ∧
      (c.write d).read = ((c.write d).button_state &&& 1, c.write d)) ∧
    (c.index < 8 →
      c.read = ((c.button_state >>> c.index) &&& 1,
        { c with index := if c.strobe then c.index else c.index + 1 })) ∧
    (8 ≤ c.index → c.read = (0, c)) := by
  refine ⟨fun h => ?_, fun h => ?_, fun h => ?_⟩
  · simp [Controller.write, Controller.read, h]
  · cases hcs : c.strobe <;> simp [Controller.read, h, hcs]
  · simp [Controller.read, Nat.not_lt.mpr h]

/-- C10 witness: with buttons = A only, a strobe write followed by a
read yields bit 0 with the cursor still at 0, and a read at cursor 8
returns 0 without moving. -/
theorem c10_controller_strobe_witness :
    Controller.read (Controller.write ⟨1, false, 3⟩ 1) =
      (1, Controller.write ⟨1, false, 3⟩ 1) ∧
    Controller.read ⟨0xff, false, 8⟩ = (0, ⟨0xff, false, 8⟩) := by
  constructor
  · exact ((c10_controller_strobe ⟨1, false, 3⟩ 1).1 (by decide)).2.2.trans (by decide)
  · exact (c10_controller_strobe ⟨0xff, false, 8⟩ 0).2.2 (by decide)

/-- PPU-bus reads do not depend on the `last_read` latch. -/
theorem read_byte_latch (p : PPU) (m : Mapper) (a : Nat) (lr : Option Nat) :
    PPU.read_byte { p with last_read := lr } m a = p.read_byte m a := rfl

/-- Advancing the dot counter never changes the scroll address. -/
theorem update_cycle_v (q : PPU) : q.update_cycle.v = q.v := by
  unfold PPU.update_cycle; split_ifs <;> rfl

/-- The vblank handler never changes the scroll address. -/
theorem step_vblank_v (q : PPU) : q.step_vblank.v = q.v := by
  unfold PPU.step_vblank; split_ifs <;> rfl

/-- With rendering disabled a visible-scanline step is a no-op. -/
theorem step_visible_off (q : PPU) (m : Mapper) (h : q.rendering_enabled = false) :
    q.step_visible m = some q := by
  unfold PPU.step_visible; rw [h]; rfl

/-- With rendering disabled the pre-render step can only clear status
bits; the scroll address is untouched. -/
theorem step_pre_render_off (q : PPU) (m : Mapper)
    (h : q.rendering_enabled = false) :
    (q.step_pre_render m).map PPU.v = some q.v := by
  unfold PPU.step_pre_render
  split_ifs <;>
    first
      | rfl
      | (simp only [PPU.rendering_enabled, PPUMask.ofRaw] at h ⊢
         rw [h]
         simp)

/-- With rendering disabled no scanline handler changes the scroll
address. -/
theorem step_scanline_off (q : PPU) (m : Mapper)
    (h : q.rendering_enabled = false) (hs : q.scanline ≤ 261) :
    (q.step_scanline m).map PPU.v = some q.v := by
  unfold PPU.step_scanline
  by_cases h1 : q.scanline ≤ 239
  · rw [if_pos h1, step_visible_off q m h]; rfl
  · rw [if_neg h1]
    by_cases h2 : (q.scanline == 240) = true
    · rw [if_pos h2]; rfl
    · rw [if_neg h2]
      by_cases h3 : q.scanline ≤ 260
      · rw [if_pos h3]
        simp [step_vblank_v]
      · have h4 : q.scanline = 261 := by
          simp only [beq_iff_eq] at h2; omega
        rw [if_neg h3, if_pos (by simp [h4])]
        exact step_pre_render_off q m h

/-- Consuming a pending `$2007` latch wraps the scroll address forward
by the control-register increment and clears the latch. -/
theorem consume_latch_2007 (p : PPU) (hl : p.last_read = some 0x2007) :
    p.consume_latch =
      { p with
        v := wadd16 p.v
          (if (PPUControl.ofRaw p.control_reg).vram_increment then 32 else 1),
        last_read := none } := by
  unfold PPU.consume_latch
  rw [hl]
  rfl

/-- C6 (amended): a read of `$2007` returns the prior buffered value
for v in $0000-$3EFF while refilling the read buffer from the current
(pre-increment) location, and for v in $3F00-$3FFF returns the palette
byte directly while refilling the buffer from the underlying mirror at
v xor $1000 (again pre-increment); the auto-increment of v by 1 or 32
per control.vram_increment is applied by the next PPU step through the
`last_read` latch. -/
theorem c6_ppudata_amended :
    (∀ (p : PPU) (m : Mapper) (c : Nat), p.v ≤ 0x3eff →
      p.read_byte m p.v = some c →
      p.read_register m 0x2007 =
        some (p.buffered_ppu_data,
          { p with last_read := some 0x2007, buffered_ppu_data := c })) ∧
    (∀ (p : PPU) (m : Mapper) (c c2 : Nat), 0x3f00 ≤ p.v → p.v ≤ 0x3fff →
      p.read_byte m p.v = some c →
      p.read_byte m (p.v ^^^ 0x1000) = some c2 →
      p.read_register m 0x2007 =
        some (c, { p with last_read := some 0x2007, buffered_ppu_data := c2 })) ∧
    (∀ (p : PPU) (m : Mapper), p.rendering_enabled = false →
      p.last_read = some 0x2007 → p.scanline ≤ 261 →
      (p.step m).map PPU.v =
        some (wadd16 p.v
          (if (PPUControl.ofRaw p.control_reg).vram_increment then 32 else 1))) := by
  refine ⟨fun p m c hv hr => ?_, fun p m c c2 hlo hhi hr hr2 => ?_,
    fun p m h hl hs => ?_⟩
  · unfold PPU.read_register
    norm_num
    rw [show (8192 ||| 8199 &&& 15 : Nat) = 8199 from by decide]
    norm_num
    rw [read_byte_latch, hr]
    simp only [Option.some_bind]
    rw [if_pos hv]
  · unfold PPU.read_register
    norm_num
    rw [show (8192 ||| 8199 &&& 15 : Nat) = 8199 from by decide]
    norm_num
    rw [read_byte_latch, hr]
    simp only [Option.some_bind]
    rw [if_neg (by omega), if_pos hhi, read_byte_latch, hr2]
    rfl
  · unfold PPU.step
    rw [consume_latch_2007 p hl]
    have h2 := step_scanline_off
      { p with
        v := wadd16 p.v
          (if (PPUControl.ofRaw p.control_reg).vram_increment then 32 else 1),
        last_read := none } m h hs
    rcases hq : PPU.step_scanline
        { p with
          v := wadd16 p.v
            (if (PPUControl.ofRaw p.control_reg).vram_increment then 32 else 1),
          last_read := none } m with _ | q2
    · rw [hq] at h2; simp at h2
    · rw [hq] at h2
      simp only [Option.map_some', Option.some.injEq] at h2
      simp [Option.map_some', update_cycle_v, h2]

/-- C6 witness: reading `$2007` on `bufPPU` (v = `$2000`, byte 5 at the
current location) returns the old buffer and loads 5 into it; a
following step with rendering disabled advances v to `$2001`. -/
theorem c6_ppudata_amended_witness :
    bufPPU.read_register testMapper 0x2007 =
      some (0, { bufPPU with last_read := some 0x2007, buffered_ppu_data := 5 }) ∧
    (({ bufPPU with last_read := some 0x2007 } : PPU).step testMapper).map PPU.v =
      some 0x2001 := by
  constructor
  · exact c6_ppudata_amended.1 bufPPU testMapper 5 (by decide) (by decide)
  · have h := c6_ppudata_amended.2.2 { bufPPU with last_read := some 0x2007 }
      testMapper (by decide) rfl (by decide)
    exact h.trans (by decide)

/-- Dispatching any of the eight branch opcodes is exactly
`branch_on_flag` with the flag and polarity of that opcode. -/
theorem dispatch_branch (M : Machine) (bop : Opcode) (fl : StatusFlags) (bs : Bool)
    (a : Nat) (h : branchInfo bop = some (fl, bs)) :
    M.dispatch bop (some a) = some (M.branch_on_flag fl bs a) := by
  cases bop <;> try exact Option.noConfusion h
  all_goals
    injection h with h2
    injection h2 with h3 h4
    subst h3
    subst h4
    rfl

/-- With no pending NMI, a CPU step is decode, PC advance, cycle charge
and dispatch, returning the wrapped cycle delta. -/
theorem step_no_nmi (tbl : Nat → ExtendedOpcode) (M : Machine)
    (hnmi : M.bus.ppu.pending_nmi = false) :
    Machine.step tbl M =
      (M.decode tbl M.cpu.pc).bind fun dr =>
        ((dr.2.mapCpu fun cp =>
            let newpc := wadd16 cp.pc dr.1.width
            let newcycles := w64 (cp.cycles + dr.1.extended_opcode.min_cycles +
              (if dr.1.page_boundary_hit then 1 else 0))
            { cp with pc := newpc, cycles := newcycles }).dispatch
          dr.1.extended_opcode.opcode dr.1.final_address).map fun M2 =>
            (M2, w16 (wsub64 M2.cpu.cycles M.cpu.cycles)) := by
  unfold Machine.step PPU.read_nmi_line
  simp only [hnmi, Bool.false_eq_true, if_false]
  rw [← hnmi]

/-- C9: a CPU step that executes a branch instruction (relative mode,
branch opcode) consumes the table minimum plus 0 extra cycles when the
branch is not taken, plus 1 when taken, plus 2 when taken with the
target on a different 256-byte page from the instruction following the
branch (pc + 2). -/
theorem c9_branch_cycles (tbl : Nat → ExtendedOpcode) (M : Machine)
    (op offv mc : Nat) (pen : Bool) (fl : StatusFlags) (bs : Bool) (bop : Opcode)
    (hnmi : M.bus.ppu.pending_nmi = false)
    (hop : M.read_byte M.cpu.pc = some (op, M))
    (hoff : M.read_byte (wadd16 M.cpu.pc 1) = some (offv, M))
    (htbl : tbl op = ⟨bop, .Relative, mc, pen⟩)
    (hbr : branchInfo bop = some (fl, bs))
    (hcyc : M.cpu.cycles + mc + 2 < 18446744073709551616)
    (hmc : mc + 2 < 65536) :
    (Machine.step tbl M).map Prod.snd =
      some (mc +
        (if M.cpu.check_status_bit fl == bs then
          1 + (if crosses_page_boundary (wadd16 M.cpu.pc 2)
                (if offv ≥ 0x80 then wsub16 (wadd16 M.cpu.pc 2) (0x100 - offv)
                 else wadd16 (wadd16 M.cpu.pc 2) offv) then 1 else 0)
         else 0)) := by
  rw [step_no_nmi tbl M hnmi]
  unfold Machine.decode
  rw [hop]
  simp only [Option.some_bind]
  rw [htbl]
  simp only []
  rw [hoff]
  simp only [Option.map_some', Option.some_bind]
  rw [dispatch_branch _ bop fl bs _ hbr]
  simp only [Option.map_some', Machine.branch_on_flag, Machine.mapCpu,
    CPU.check_status_bit, Bool.false_eq_true, if_false]
  by_cases htk : ((M.cpu.status &&& (1 <<< fl.bit) != 0) == bs) = true
  · rw [if_pos htk, if_pos htk]
    have hcr : (if crosses_page_boundary (wadd16 M.cpu.pc 2)
        (if offv ≥ 128 then wsub16 (wadd16 M.cpu.pc 2) (256 - offv)
         else wadd16 (wadd16 M.cpu.pc 2) offv) = true then (1:Nat) else 0) ≤ 1 := by
      split_ifs <;> norm_num
    simp only [Option.some.injEq]
    generalize (if crosses_page_boundary (wadd16 M.cpu.pc 2)
        (if offv ≥ 128 then wsub16 (wadd16 M.cpu.pc 2) (256 - offv)
         else wadd16 (wadd16 M.cpu.pc 2) offv) = true then (1:Nat) else 0) = cr
      at hcr ⊢
    unfold w16 w64 wsub64
    omega
  · rw [if_neg htk, if_neg htk]
    simp only [Option.some.injEq]
    unfold w16 w64 wsub64
    omega

/-- C9 witness: on the fresh machine (pc = 0, zeroed RAM, carry clear)
a BCS-everywhere table decodes a not-taken branch, so the step consumes
exactly the 2-cycle minimum. -/
theorem c9_branch_cycles_witness :
    (Machine.step bcsTable testMachine).map Prod.snd = some 2 := by
  have hop : testMachine.read_byte testMachine.cpu.pc = some (0, testMachine) := by
    unfold Machine.read_byte
    rw [if_pos (show testMachine.cpu.pc ≤ 0x1fff by decide)]
    rw [show testMachine.cpu.ram = List.replicate 0x800 0 from rfl,
      List.length_replicate]
    rfl
  have hoff : testMachine.read_byte (wadd16 testMachine.cpu.pc 1) =
      some (0, testMachine) := by
    unfold Machine.read_byte
    rw [if_pos (show wadd16 testMachine.cpu.pc 1 ≤ 0x1fff by decide)]
    rw [show testMachine.cpu.ram = List.replicate 0x800 0 from rfl,
      List.length_replicate]
    rfl
  have h := c9_branch_cycles bcsTable testMachine 0 0 2 false .C true .BCS
    rfl hop hoff rfl rfl (by decide) (by decide)
  exact h.trans (by decide)

end NES
